import Mathlib

/-
Verification of the MEDASSIST interactive-conversation orchestration layer.

The Python source (`function.py`, `app.py`) post-processes a JSON object
returned by an external language model.  We embed Python `dict`s holding
parsed JSON as association lists of `JValue`s, Python truthiness as
`JValue.truthy`, and the fact that type errors raised inside the
post-processing are caught by the surrounding `except` (returning a fixed
fallback object) by making the post-processing return `Option Dict`.
JSON arrays are modelled as arrays of strings (`jStrList`): every array
field in this schema (`follow_up_options`, `symptoms_to_rate`,
`medication`) holds strings.
-/

namespace MedAssist

/-- A parsed JSON value as manipulated by the Python code. -/
inductive JValue where
  | jStr  (s : String)
  | jBool (b : Bool)
  | jInt  (n : Int)
  | jStrList (xs : List String)
  | jNull
  deriving DecidableEq

/-- Python truthiness of a JSON value (`if v:`). -/
def JValue.truthy : JValue → Bool
  | .jStr s  => !(s == "")
  | .jBool b => b
  | .jInt n  => !(n == 0)
  | .jStrList l => !l.isEmpty
  | .jNull   => false

/-- Python `v == s` for a string literal `s` (false across types). -/
def JValue.eqStr (v : JValue) (s : String) : Bool :=
  match v with
  | .jStr t => t == s
  | _ => false

/-- Python `v == n` for an integer literal (`True == 1`, `False == 0`). -/
def JValue.eqInt (v : JValue) (n : Int) : Bool :=
  match v with
  | .jInt m => m == n
  | .jBool b => (if b then (1 : Int) else 0) == n
  | _ => false

/-- A Python dict as an insertion-ordered association list. -/
abbrev Dict := List (String × JValue)

/-- `d[k]` / `d.get(k)`: the value at the first occurrence of key `k`. -/
def dget : Dict → String → Option JValue
  | [], _ => none
  | (k', v) :: rest, k => if k' = k then some v else dget rest k

/-- `d[k] = v`: replace the value at `k` in place, appending if absent. -/
def dset : Dict → String → JValue → Dict
  | [], k, v => [(k, v)]
  | (k', v') :: rest, k, v =>
      if k' = k then (k, v) :: rest else (k', v') :: dset rest k v

/-- `d.setdefault(k, v)`: insert `v` at `k` only when `k` is absent. -/
def dsetdefault (d : Dict) (k : String) (v : JValue) : Dict :=
  match dget d k with
  | some _ => d
  | none => d ++ [(k, v)]

/-- `d.get(k)` with Python `None` for a missing key. -/
def dgetD (d : Dict) (k : String) : JValue :=
  (dget d k).getD .jNull

/-- `d.get(k, dflt)` where the Python code will call a `str` method on the
result: returns `none` when the stored value is not a string, modelling the
`AttributeError`/`TypeError` the Python code would raise. -/
def getStrD (d : Dict) (k : String) (dflt : String) : Option String :=
  match dget d k with
  | none => some dflt
  | some (.jStr s) => some s
  | some _ => none

theorem dget_dset_self (d : Dict) (k : String) (v : JValue) :
    dget (dset d k v) k = some v := by
  induction d with
  | nil => simp [dset, dget]
  | cons p rest ih =>
      obtain ⟨k', v'⟩ := p
      by_cases h : k' = k <;> simp [dset, dget, h, ih]

theorem dget_dset_ne (d : Dict) (k k' : String) (v : JValue) (h : k' ≠ k) :
    dget (dset d k v) k' = dget d k' := by
  induction d with
  | nil =>
      simp only [dset, dget]
      rw [if_neg (fun hh => h hh.symm)]
  | cons p rest ih =>
      obtain ⟨k₀, v₀⟩ := p
      by_cases hk : k₀ = k
      · subst hk
        simp only [dset, if_pos rfl, dget]
        rw [if_neg (fun hh : k₀ = k' => h hh.symm),
            if_neg (fun hh : k₀ = k' => h hh.symm)]
      · simp only [dset, if_neg hk, dget]
        by_cases hk' : k₀ = k'
        · rw [if_pos hk', if_pos hk']
        · rw [if_neg hk', if_neg hk', ih]

theorem dget_append_of_none (d₁ d₂ : Dict) (k : String) (h : dget d₁ k = none) :
    dget (d₁ ++ d₂) k = dget d₂ k := by
  induction d₁ with
  | nil => rfl
  | cons p rest ih =>
      obtain ⟨k₀, v₀⟩ := p
      by_cases hk : k₀ = k
      · simp only [dget, if_pos hk] at h
        exact Option.noConfusion h
      · simp only [dget, if_neg hk] at h
        simpa only [List.cons_append, dget, if_neg hk] using ih h

theorem dget_append_of_some (d₁ d₂ : Dict) (k : String) (v : JValue)
    (h : dget d₁ k = some v) : dget (d₁ ++ d₂) k = some v := by
  induction d₁ with
  | nil => exact Option.noConfusion h
  | cons p rest ih =>
      obtain ⟨k₀, v₀⟩ := p
      by_cases hk : k₀ = k
      · simp only [dget, if_pos hk] at h
        simp only [List.cons_append, dget, if_pos hk, h]
      · simp only [dget, if_neg hk] at h
        simpa only [List.cons_append, dget, if_neg hk] using ih h

theorem dget_dsetdefault (d : Dict) (k : String) (v : JValue) :
    dget (dsetdefault d k v) k = some ((dget d k).getD v) := by
  cases h : dget d k with
  | some w =>
      simp only [dsetdefault, h, Option.getD_some]
  | none =>
      simp only [dsetdefault, h, Option.getD_none]
      rw [dget_append_of_none _ _ _ h]
      simp [dget]

theorem dget_dsetdefault_ne (d : Dict) (k k' : String) (v : JValue) (h : k' ≠ k) :
    dget (dsetdefault d k v) k' = dget d k' := by
  cases hk : dget d k with
  | some w => simp only [dsetdefault, hk]
  | none =>
      simp only [dsetdefault, hk]
      cases h' : dget d k' with
      | some w => exact dget_append_of_some _ _ _ _ h'
      | none =>
          rw [dget_append_of_none _ _ _ h']
          simp only [dget, h']
          rw [if_neg (fun hh : k = k' => h hh.symm)]

theorem dget_dsetdefault_of_isSome (d : Dict) (k k' : String) (v : JValue)
    (h : (dget d k').isSome) : dget (dsetdefault d k v) k' = dget d k' := by
  by_cases hk : k' = k
  · subst hk
    obtain ⟨w, hw⟩ := Option.isSome_iff_exists.mp h
    rw [dget_dsetdefault, hw]
    rfl
  · exact dget_dsetdefault_ne _ _ _ _ hk

theorem isSome_dget_dset (d : Dict) (k k' : String) (v : JValue)
    (h : (dget d k').isSome) : (dget (dset d k v) k').isSome := by
  by_cases hk : k' = k
  · subst hk; rw [dget_dset_self]; rfl
  · rw [dget_dset_ne _ _ _ _ hk]; exact h

theorem isSome_dget_dset_self (d : Dict) (k : String) (v : JValue) :
    (dget (dset d k v) k).isSome := by
  rw [dget_dset_self]; rfl

theorem isSome_dget_dsetdefault (d : Dict) (k k' : String) (v : JValue)
    (h : (dget d k').isSome) : (dget (dsetdefault d k v) k').isSome := by
  by_cases hk : k' = k
  · subst hk; rw [dget_dsetdefault]; rfl
  · rw [dget_dsetdefault_ne _ _ _ _ hk]; exact h

theorem isSome_dget_dsetdefault_self (d : Dict) (k : String) (v : JValue) :
    (dget (dsetdefault d k v) k).isSome := by
  rw [dget_dsetdefault]; rfl

/-! ### String helpers mirroring the Python `str` operations used -/

/-- `listPrefixOf p l`: `p` is a prefix of `l`. -/
def listPrefixOf : List Char → List Char → Bool
  | [], _ => true
  | _ :: _, [] => false
  | a :: as, b :: bs => a == b && listPrefixOf as bs

/-- `listInfixOf p l`: `p` occurs contiguously inside `l`. -/
def listInfixOf (pat : List Char) : List Char → Bool
  | [] => pat.isEmpty
  | b :: bs => listPrefixOf pat (b :: bs) || listInfixOf pat bs

/-- Python `pat in s` substring containment. -/
def strContains (s pat : String) : Bool := listInfixOf pat.data s.data

/-- Python `s.lower()` (ASCII, which covers every keyword in the source). -/
def strLower (s : String) : String := ⟨s.data.map Char.toLower⟩

/-- Whitespace as recognised by Python `str.split()` / `str.strip()`. -/
def isWsChar (c : Char) : Bool :=
  c == ' ' || c == '\t' || c == '\n' || c == '\r' || c == '\x0b' || c == '\x0c'

def countWordsAux : List Char → Bool → Nat
  | [], _ => 0
  | c :: rest, inWord =>
      if isWsChar c then countWordsAux rest false
      else (if inWord then 0 else 1) + countWordsAux rest true

/-- Python `len(s.split())`: number of maximal non-whitespace runs. -/
def countWords (s : String) : Nat := countWordsAux s.data false

/-- Python `s.endswith("?")`. -/
def endsWithQm (s : String) : Bool :=
  match s.data.getLast? with
  | some c => c == '?'
  | none => false

/-- Python `s.strip(".")`. -/
def stripDots (s : String) : String :=
  ⟨((s.data.dropWhile (· == '.')).reverse.dropWhile (· == '.')).reverse⟩

/-- Python `s.strip()`. -/
def pyStrip (s : String) : String :=
  ⟨((s.data.dropWhile isWsChar).reverse.dropWhile isWsChar).reverse⟩

/-! ### Keyword heuristics (`function.py` lines 776-832, empty history) -/

def nonMedicalKeywords : List String :=
  ["weather", "time", "joke", "sports", "movie", "music", "news", "history",
   "capital", "translate"]

def medicalContextKeywords : List String :=
  ["health", "medical", "doctor", "symptom", "pain", "sick", "ill",
   "condition", "treat", "fever", "cough", "ache", "nausea", "rash"]

def highSeverityKeywords : List String :=
  ["severe", "worst", "unbearable", "intense", "extreme", "emergency",
   "ambulance", "hospital now", "urgent care", "pass out", "faint",
   "chest pain", "difficulty breathing", "stroke symptoms"]

def initialSymptomKeywords : List String :=
  ["symptom", "pain", "sick", "ill", "condition", "fever", "cough", "ache",
   "nausea", "rash", "headache", "feel"]

def anyKeyword (ks : List String) (ml : String) : Bool :=
  ks.any (fun t => strContains ml t)

/-- The guard on `function.py` line 790: a non-medical query has a
non-medical keyword and no medical-context keyword. -/
def isNonMedicalMsg (ml : String) : Bool :=
  !(anyKeyword medicalContextKeywords ml) && anyKeyword nonMedicalKeywords ml

/-- The guard on `function.py` line 793. -/
def isHighSeverityMsg (ml : String) : Bool := anyKeyword highSeverityKeywords ml

/-- `re.search(r'\d\s*/\s*10', ml)` starting at the head of the list. -/
def ratingPatHere : List Char → Bool
  | [] => false
  | c :: rest =>
      c.isDigit &&
        (match rest.dropWhile isWsChar with
         | '/' :: r2 => listPrefixOf ['1', '0'] (r2.dropWhile isWsChar)
         | _ => false)

def hasRatingPat : List Char → Bool
  | [] => false
  | c :: rest => ratingPatHere (c :: rest) || hasRatingPat rest

/-- `"rating" in message_lower and re.search(r'\d\s*/\s*10', message_lower)`
(`function.py` line 778). -/
def isRatingResponse (ml : String) : Bool :=
  strContains ml "rating" && hasRatingPat ml.data

/-- The static per-symptom-keyword total-steps table, rows in SOURCE order
(`function.py` lines 799-804). -/
def symptomTableSteps (ml : String) : Int :=
  if anyKeyword ["headache", "head", "migraine"] ml then 4
  else if anyKeyword ["stomach", "nausea", "vomit", "diarrhea"] ml then 4
  else if anyKeyword ["fever", "temperature"] ml then 3
  else if anyKeyword ["cough", "breathing"] ml then 4
  else if anyKeyword ["rash", "skin"] ml then 5
  else 4

/-- Modelled from the claim text of C9, NOT from the source: the same rows
but in the order the claim lists them ("fever/temperature → 3, rash/skin →
5, headache/head/migraine → 4, stomach/... → 4, cough/breathing → 4,
otherwise 4, with earlier table rows taking precedence").  Used only to
compare against the source-derived `symptomTableSteps`. -/
def specClaimTableSteps (ml : String) : Int :=
  if anyKeyword ["fever", "temperature"] ml then 3
  else if anyKeyword ["rash", "skin"] ml then 5
  else if anyKeyword ["headache", "head", "migraine"] ml then 4
  else if anyKeyword ["stomach", "nausea", "vomit", "diarrhea"] ml then 4
  else if anyKeyword ["cough", "breathing"] ml then 4
  else 4

/-- Which instruction prefix `gemini_interactive` selects for a message with
empty (or absent) conversation history (the `elif` chain on lines 788-832;
the two history-dependent branches cannot fire with empty history). -/
inductive InstrKind where
  | nonMedical
  | highSeverity
  | initialSymptom
  | ratingResponse
  | plain
  deriving DecidableEq

def selectInstructionEmpty (message : String) : InstrKind :=
  let ml := strLower message
  if isNonMedicalMsg ml then .nonMedical
  else if isHighSeverityMsg ml then .highSeverity
  else if anyKeyword initialSymptomKeywords ml then .initialSymptom
  else if isRatingResponse ml then .ratingResponse
  else .plain

/-- `estimated_total_steps` as computed for an empty history: the default 4
unless the initial-symptom branch runs the table. -/
def emptyHistoryEstimatedSteps (message : String) : Int :=
  let ml := strLower message
  if isNonMedicalMsg ml then 4
  else if isHighSeverityMsg ml then 4
  else if anyKeyword initialSymptomKeywords ml then symptomTableSteps ml
  else 4

/-! ### Medication splitting (`function.py` lines 966-981) -/

def pushRun (cur : List Char) (acc : List String) : List String :=
  if cur.isEmpty then acc else String.mk cur.reverse :: acc

/-- Scanner for `re.findall(r'[A-Z][a-z]*', s)`: `cur` is the reversed run
in progress, `acc` the completed runs in reverse order. -/
def capRunsGo : List Char → List Char → List String → List String
  | [], cur, acc => (pushRun cur acc).reverse
  | c :: rest, cur, acc =>
      if c.isUpper then capRunsGo rest [c] (pushRun cur acc)
      else if c.isLower then
        (if cur.isEmpty then capRunsGo rest [] acc
         else capRunsGo rest (c :: cur) acc)
      else capRunsGo rest [] (pushRun cur acc)

/-- `re.findall(r'[A-Z][a-z]*', s)`. -/
def capFindall (s : String) : List String := capRunsGo s.data [] []

/-- One medication entry: the capitalised runs, or the original string when
the regex finds nothing (`function.py` lines 973-977). -/
def splitMedEntry (s : String) : List String :=
  let runs := capFindall s
  if runs.isEmpty then [s] else runs

/-! ### Post-processing of the parsed model reply
(`function.py` lines 862-1029, split into sequential stages) -/

def STANDARD_DISCLAIMER : String :=
  "Disclaimer: I am an AI Chatbot. This information is not a substitute for professional medical advice. Always consult a doctor for diagnosis and treatment."

def briefSummaryResponse : String :=
  "Okay, here is a summary based on our conversation. Please review the details below."

def durationOptions : List String :=
  ["Less than a day", "1-3 days", "4-7 days", "1-2 weeks", "More than 2 weeks"]

def yesNoOptions : List String := ["Yes", "No", "Not sure"]

def defaultSelectOptions : List String := ["Yes", "No", "Sometimes", "Not sure"]

def symptomChoiceOptions : List String :=
  ["Fever", "Headache", "Nausea", "Dizziness", "Fatigue", "Cough",
   "Runny nose", "Sore throat", "None of these"]

def defaultMultiOptions : List String :=
  ["Option 1", "Option 2", "Option 3", "None of these"]

def durationTermsA : List String := ["duration", "how long", "when did", "since when"]

def durationTermsB : List String := ["how long", "duration", "when did", "since when"]

def symptomTerms : List String := ["symptom", "experience", "feeling", "notice"]

def severityTerms : List String := ["pain", "severe", "intensity", "scale", "rate", "level"]

/-- Lines 868-872: `setdefault` for `response`, then fill `current_step`
when it is missing or `== 0`. -/
def stage1a (conversationStep : Int) (d : Dict) : Dict :=
  let d := dsetdefault d "response" (.jStr "")
  if !(dget d "current_step").isSome || (dgetD d "current_step").eqInt 0
  then dset d "current_step" (.jInt conversationStep) else d

/-- Lines 874-875: fill `total_steps` when it is missing or `== 0`. -/
def stage1b (estimatedTotalSteps : Int) (d : Dict) : Dict :=
  if !(dget d "total_steps").isSome || (dgetD d "total_steps").eqInt 0
  then dset d "total_steps" (.jInt estimatedTotalSteps) else d

/-- Lines 878-880: `setdefault` for the follow-up fields. -/
def stage1c (d : Dict) : Dict :=
  let d := dsetdefault d "needs_follow_up" (.jBool false)
  let d := dsetdefault d "follow_up_question"
             (if (dgetD d "needs_follow_up").truthy
              then .jStr "Could you tell me more?" else .jStr "")
  dsetdefault d "follow_up_type" (.jStr "select")

/-- Lines 868-880: `setdefault` for `response`, progress fields and
follow-up fields.  `conversationStep`/`estimatedTotalSteps` are the values
computed earlier in the function from the history and message. -/
def stage1 (conversationStep estimatedTotalSteps : Int) (d : Dict) : Dict :=
  stage1c (stage1b estimatedTotalSteps (stage1a conversationStep d))

/-- Lines 884-904: fill default `follow_up_options` for `select` /
`multiselect` questions.  `none` models the `AttributeError` raised when
`follow_up_question` holds a non-string. -/
def optionsSelectPart (d : Dict) : Option Dict :=
  let fut := (dget d "follow_up_type").getD (.jStr "select")
  let fuo := (dget d "follow_up_options").getD (.jStrList [])
  if fut.eqStr "select" && !fuo.truthy then
    match getStrD d "follow_up_question" "" with
    | none => none
    | some q =>
        let ql := strLower q
        if durationTermsA.any (fun t => strContains ql t) then
          some (dset d "follow_up_options" (.jStrList durationOptions))
        else if endsWithQm q && countWords q < 15 then
          some (dset d "follow_up_options" (.jStrList yesNoOptions))
        else
          some (dset d "follow_up_options" (.jStrList defaultSelectOptions))
  else if fut.eqStr "multiselect" && !fuo.truthy then
    match getStrD d "follow_up_question" "" with
    | none => none
    | some q =>
        let ql := strLower q
        if symptomTerms.any (fun t => strContains ql t) then
          some (dset d "follow_up_options" (.jStrList symptomChoiceOptions))
        else
          some (dset d "follow_up_options" (.jStrList defaultMultiOptions))
  else some d

/-- Lines 906-934: convert a `text` follow-up into an interactive type. -/
def optionsTextPart (d : Dict) : Option Dict :=
  let fut := (dget d "follow_up_type").getD (.jStr "select")
  if fut.eqStr "text" then
    match getStrD d "follow_up_question" "" with
    | none => none
    | some q0 =>
        let ql := strLower q0
        if durationTermsB.any (fun t => strContains ql t) then
          some (dset (dset d "follow_up_type" (.jStr "select"))
                  "follow_up_options" (.jStrList durationOptions))
        else if endsWithQm ql && countWords ql < 15 then
          some (dset (dset d "follow_up_type" (.jStr "select"))
                  "follow_up_options" (.jStrList yesNoOptions))
        else if symptomTerms.any (fun t => strContains ql t) then
          some (dset (dset d "follow_up_type" (.jStr "multiselect"))
                  "follow_up_options" (.jStrList symptomChoiceOptions))
        else if severityTerms.any (fun t => strContains ql t) then
          let d := dset d "follow_up_type" (.jStr "scale")
          if !(dgetD d "follow_up_question").truthy then
            match getStrD d "Symptoms" "" with
            | none => none
            | some sym =>
                let symptom := stripDots sym
                if !(symptom == "") then
                  some (dset d "follow_up_question"
                    (.jStr ("On a scale of 1 to 10, how would you rate your "
                            ++ symptom ++ "?")))
                else
                  some (dset d "follow_up_question"
                    (.jStr "On a scale of 1 to 10, how would you rate the severity?"))
          else some d
        else some d
  else some d

/-- Lines 883-934: the whole block guarded by `needs_follow_up`. -/
def stageOptions (d : Dict) : Option Dict :=
  if (dgetD d "needs_follow_up").truthy then
    match optionsSelectPart d with
    | none => none
    | some d' => optionsTextPart d'
  else some d

/-- Lines 936-942: a `scale` follow-up always gets a question. -/
def stageScaleBackfill (d : Dict) : Option Dict :=
  if (dgetD d "follow_up_type").eqStr "scale"
      && !(dgetD d "follow_up_question").truthy then
    match getStrD d "Symptoms" "" with
    | none => none
    | some sym =>
        let symptom := stripDots sym
        if !(symptom == "") then
          some (dset d "follow_up_question"
            (.jStr ("On a scale of 1 to 10, how would you rate your "
                    ++ symptom ++ "?")))
        else
          some (dset d "follow_up_question"
            (.jStr "On a scale of 1 to 10, how would you rate the severity?"))
  else some d

/-- Lines 944-961: `setdefault` for all remaining schema fields. -/
def stageDefaults (d : Dict) : Dict :=
  let d := dsetdefault d "rate_symptoms" (.jBool false)
  let d := dsetdefault d "symptoms_to_rate" (.jStrList [])
  let d := dsetdefault d "is_medical_related" (.jBool true)
  let d := dsetdefault d "is_medical_related_prompt"
             (if (dgetD d "is_medical_related").truthy then .jStr "Yes" else .jStr "No")
  let d := dsetdefault d "can_provide_structured_response" (.jBool false)
  let d := dsetdefault d "conversation_complete" (.jBool false)
  let d := dsetdefault d "current_step" (.jInt 0)
  let d := dsetdefault d "total_steps" (.jInt 0)
  let d := dsetdefault d "Symptoms" (.jStr ".")
  let d := dsetdefault d "Remedies" (.jStr "")
  let d := dsetdefault d "Precautions" (.jStr "")
  let d := dsetdefault d "Guidelines" (.jStr "")
  let d := dsetdefault d "medication" (.jStrList [])
  let d := dsetdefault d "Disclaimer" (.jStr STANDARD_DISCLAIMER)
  dsetdefault d "image_search_term" (.jStr "")

/-- Lines 966-981: split concatenated medication names. -/
def stageMeds (d : Dict) : Dict :=
  match dget d "medication" with
  | some (.jStrList meds) =>
      dset d "medication" (.jStrList (meds.map splitMedEntry).flatten)
  | _ => d

/-- Lines 984-989: replace the conversational text with a brief canned
summary message when `can_provide_structured_response` is truthy. -/
def stageCanned (d : Dict) : Dict :=
  if (dgetD d "can_provide_structured_response").truthy then
    dset d "response" (.jStr briefSummaryResponse)
  else d

/-- Lines 991-1006: a complete conversation needs no follow-up, and a
complete medical conversation gets a structured response with non-trivial
fields. -/
def stageComplete (d : Dict) : Dict :=
  if (dgetD d "conversation_complete").truthy then
    let d := dset d "needs_follow_up" (.jBool false)
    let d := dset d "follow_up_question" (.jStr "")
    if (dgetD d "is_medical_related").truthy then
      let d := dset d "can_provide_structured_response" (.jBool true)
      let d := if !(dgetD d "Symptoms").truthy || (dgetD d "Symptoms").eqStr "."
               then dset d "Symptoms" (.jStr "Symptom details were discussed.") else d
      let d := if !(dgetD d "Remedies").truthy
               then dset d "Remedies"
                      (.jStr "General self-care advice applies. Stay hydrated, rest.")
               else d
      let d := if !(dgetD d "Precautions").truthy
               then dset d "Precautions"
                      (.jStr "Avoid strenuous activity. Monitor symptoms.")
               else d
      if !(dgetD d "Guidelines").truthy
      then dset d "Guidelines"
             (.jStr "Consult a doctor if symptoms worsen or persist.")
      else d
    else d
  else d

/-- Lines 1009-1018: a non-medical reply gets its structured fields cleared
and is marked complete. -/
def stageNonMedical (d : Dict) : Dict :=
  if !(dgetD d "is_medical_related").truthy then
    let d := dset d "can_provide_structured_response" (.jBool false)
    let d := dset d "Symptoms" (.jStr ".")
    let d := dset d "Remedies" (.jStr "")
    let d := dset d "Precautions" (.jStr "")
    let d := dset d "Guidelines" (.jStr "")
    let d := dset d "medication" (.jStrList [])
    let d := dset d "needs_follow_up" (.jBool false)
    dset d "conversation_complete" (.jBool true)
  else d

/-- Lines 1020-1026: reconcile the boolean and string medical flags. -/
def stagePromptSync (d : Dict) : Dict :=
  if (dgetD d "is_medical_related").truthy
      && (dgetD d "is_medical_related_prompt").eqStr "No" then
    dset d "is_medical_related_prompt" (.jStr "Yes")
  else if !(dgetD d "is_medical_related").truthy
      && (dgetD d "is_medical_related_prompt").eqStr "Yes" then
    dset d "is_medical_related_prompt" (.jStr "No")
  else d

/-- Lines 944-1026: everything after the follow-up options block, which
cannot raise. -/
def postTail (d : Dict) : Dict :=
  stagePromptSync (stageNonMedical (stageComplete (stageCanned
    (stageMeds (stageDefaults d)))))

/-- The whole post-processing of a parsed reply; `none` models an exception
escaping to the outer `except` handler. -/
def postCore (conversationStep estimatedTotalSteps : Int) (reply : Dict) :
    Option Dict :=
  match stageOptions (stage1 conversationStep estimatedTotalSteps reply) with
  | none => none
  | some d =>
      match stageScaleBackfill d with
      | none => none
      | some d => some (postTail d)

/-- Lines 1031-1055: the fixed fallback dict returned by the `except`
handler. -/
def fallbackDict : Dict :=
  [("response", .jStr "I apologize, I encountered a technical difficulty. Could you please select an option below?"),
   ("needs_follow_up", .jBool true),
   ("follow_up_question", .jStr "What would you like to do?"),
   ("follow_up_type", .jStr "select"),
   ("follow_up_options", .jStrList ["Try asking again", "Start a new conversation"]),
   ("rate_symptoms", .jBool false),
   ("symptoms_to_rate", .jStrList []),
   ("is_medical_related", .jBool true),
   ("is_medical_related_prompt", .jStr "Yes"),
   ("can_provide_structured_response", .jBool false),
   ("conversation_complete", .jBool false),
   ("current_step", .jInt 0),
   ("total_steps", .jInt 0),
   ("Symptoms", .jStr "."),
   ("Remedies", .jStr ""),
   ("Precautions", .jStr ""),
   ("Guidelines", .jStr ""),
   ("medication", .jStrList []),
   ("Disclaimer", .jStr STANDARD_DISCLAIMER),
   ("image_search_term", .jStr "")]

/-- The dict `gemini_interactive` returns once a reply has been parsed. -/
def giResult (conversationStep estimatedTotalSteps : Int) (reply : Dict) : Dict :=
  (postCore conversationStep estimatedTotalSteps reply).getD fallbackDict

/-! ### The retry loop (`function.py` lines 838-862) and top level -/

/-- Outcome of one `chat_session.send_message` attempt.  `replied none`
means the call returned but `json.loads` of the reply fails (or yields a
non-object); `replied (some d)` means it parses to the object `d`. -/
inductive CallOutcome where
  | failed
  | replied (parsed : Option Dict)

/-- The retry loop: result of up to three attempts, the number of calls
made, and the seconds slept between attempts (`time.sleep(1)` after each
failure except the last). -/
def runRetry (o1 o2 o3 : CallOutcome) : Option (Option Dict) × Nat × List Nat :=
  match o1 with
  | .replied p => (some p, 1, [])
  | .failed =>
      match o2 with
      | .replied p => (some p, 2, [1])
      | .failed =>
          match o3 with
          | .replied p => (some p, 3, [1, 1])
          | .failed => (none, 3, [1, 1])

/-- `gemini_interactive` as a function of the step estimates and the three
possible external-call outcomes: all failures and parse errors fall back to
`fallbackDict` via the `except` handler. -/
def geminiInteractive (conversationStep estimatedTotalSteps : Int)
    (o1 o2 o3 : CallOutcome) : Dict :=
  match (runRetry o1 o2 o3).1 with
  | none => fallbackDict
  | some none => fallbackDict
  | some (some reply) => giResult conversationStep estimatedTotalSteps reply

/-- `gemini_interactive` on a message with empty history:
`conversation_step = 1` and the table-based total-steps estimate. -/
def geminiInteractiveInitial (message : String) (o1 o2 o3 : CallOutcome) : Dict :=
  geminiInteractive 1 (emptyHistoryEstimatedSteps message) o1 o2 o3

/-! ### The `/gemini-interactive` route (`app.py` lines 102-207) -/

def restartCommands : List String :=
  ["restart", "start over", "reset", "new conversation"]

/-- `message.lower() in [...]` after `.strip()` (`app.py` lines 114, 126). -/
def isRestartMessage (message : String) : Bool :=
  restartCommands.contains (strLower (pyStrip message))

/-- The fixed restart payload (`app.py` lines 129-139). -/
def restartPayload : Dict :=
  [("response", .jStr "Okay, let\x27s start a new conversation. How can I help with your health questions today?"),
   ("needs_follow_up", .jBool false),
   ("follow_up_question", .jStr ""),
   ("is_medical_related", .jBool true),
   ("is_medical_related_prompt", .jStr "Yes"),
   ("can_provide_structured_response", .jBool false),
   ("conversation_complete", .jBool false),
   ("Disclaimer", .jStr STANDARD_DISCLAIMER),
   ("conversation_restarted", .jBool true)]

/-- The route error payload (`app.py` lines 195-207); `errName` and
`errText` abstract the interpolated exception class name and message. -/
def errorPayload (errName errText : String) : Dict :=
  [("response", .jStr ("I apologize, but an internal error occurred ("
      ++ errName ++ "). Please try again or restart the conversation.")),
   ("needs_follow_up", .jBool false),
   ("follow_up_question", .jStr ""),
   ("is_medical_related", .jBool true),
   ("is_medical_related_prompt", .jStr "Yes"),
   ("can_provide_structured_response", .jBool false),
   ("conversation_complete", .jBool true),
   ("Disclaimer", .jStr STANDARD_DISCLAIMER),
   ("error", .jStr errText)]

/-- The length failsafe (`app.py` lines 158-165). -/
def routeForce (totalMessages : Nat) (resp : Dict) : Dict :=
  if !(dgetD resp "conversation_complete").truthy && 100 ≤ totalMessages then
    let resp := dset resp "conversation_complete" (.jBool true)
    let resp := dset resp "needs_follow_up" (.jBool false)
    let resp := dset resp "follow_up_question" (.jStr "")
    if ((dget resp "is_medical_related").getD (.jBool true)).truthy then
      dset resp "can_provide_structured_response" (.jBool true)
    else resp
  else resp

/-- The consistency failsafe (`app.py` lines 168-171). -/
def routeFix (resp : Dict) : Dict :=
  if (dgetD resp "conversation_complete").truthy
      && (dgetD resp "needs_follow_up").truthy then
    dset (dset resp "needs_follow_up" (.jBool false))
      "follow_up_question" (.jStr "")
  else resp

/-- The API-layer failsafes applied to the dict returned by
`gemini_interactive` (`app.py` lines 154-174). -/
def routeProcess (totalMessages : Nat) (resp : Dict) : Dict :=
  dsetdefault (routeFix (routeForce totalMessages resp)) "Disclaimer"
    (.jStr STANDARD_DISCLAIMER)

/-- The route body for a valid request: the restart shortcut, then the
core call followed by the failsafes.  `conversationStep` /
`estimatedTotalSteps` abstract the history-based step estimation inside
`gemini_interactive` (equal to `1` / `emptyHistoryEstimatedSteps message`
when the history is empty). -/
def routeHandle (message : String) (historyLen : Nat)
    (conversationStep estimatedTotalSteps : Int)
    (o1 o2 o3 : CallOutcome) : Dict :=
  if isRestartMessage message then restartPayload
  else
    routeProcess (historyLen + 1)
      (geminiInteractive conversationStep estimatedTotalSteps o1 o2 o3)

/-- The response fields documented for the interactive endpoint. -/
def documentedFields : List String :=
  ["response", "needs_follow_up", "follow_up_question", "follow_up_type",
   "follow_up_options", "rate_symptoms", "symptoms_to_rate",
   "is_medical_related", "is_medical_related_prompt",
   "can_provide_structured_response", "conversation_complete",
   "current_step", "total_steps", "Symptoms", "Remedies", "Precautions",
   "Guidelines", "medication", "Disclaimer", "image_search_term"]

/-! ### Which keys each stage writes -/

theorem dget_ite (c : Prop) [Decidable c] (a b : Dict) (k : String) :
    dget (if c then a else b) k = if c then dget a k else dget b k := by
  split <;> rfl

theorem stage1a_dget_ne (cs : Int) (d : Dict) (k : String)
    (h1 : k ≠ "response") (h2 : k ≠ "current_step") :
    dget (stage1a cs d) k = dget d k := by
  unfold stage1a
  simp only [dget_ite, dget_dset_ne _ _ _ _ h2,
    dget_dsetdefault_ne _ _ _ _ h1, ite_self]

theorem stage1b_dget_ne (es : Int) (d : Dict) (k : String)
    (h : k ≠ "total_steps") :
    dget (stage1b es d) k = dget d k := by
  unfold stage1b
  simp only [dget_ite, dget_dset_ne _ _ _ _ h, ite_self]

theorem stage1c_dget_ne (d : Dict) (k : String)
    (h4 : k ≠ "needs_follow_up") (h5 : k ≠ "follow_up_question")
    (h6 : k ≠ "follow_up_type") :
    dget (stage1c d) k = dget d k := by
  unfold stage1c
  simp only [dget_dsetdefault_ne _ _ _ _ h4, dget_dsetdefault_ne _ _ _ _ h5,
    dget_dsetdefault_ne _ _ _ _ h6]

theorem stage1_dget_ne (cs es : Int) (d : Dict) (k : String)
    (h1 : k ≠ "response") (h2 : k ≠ "current_step") (h3 : k ≠ "total_steps")
    (h4 : k ≠ "needs_follow_up") (h5 : k ≠ "follow_up_question")
    (h6 : k ≠ "follow_up_type") :
    dget (stage1 cs es d) k = dget d k := by
  unfold stage1
  rw [stage1c_dget_ne _ _ h4 h5 h6, stage1b_dget_ne _ _ _ h3,
    stage1a_dget_ne _ _ _ h1 h2]

/-- Line 874-875 as an equation: if the reply omits `total_steps` or sets
it to `0`, the estimate is written. -/
theorem stage1_total_steps (cs es : Int) (d : Dict)
    (h : (!(dget d "total_steps").isSome || (dgetD d "total_steps").eqInt 0)
          = true) :
    dget (stage1 cs es d) "total_steps" = some (.jInt es) := by
  unfold stage1
  rw [stage1c_dget_ne _ _ (by decide) (by decide) (by decide)]
  have ha : dget (stage1a cs d) "total_steps" = dget d "total_steps" :=
    stage1a_dget_ne _ _ _ (by decide) (by decide)
  unfold stage1b
  rw [dget_ite]
  rw [if_pos]
  · exact dget_dset_self _ _ _
  · unfold dgetD
    rw [ha]
    unfold dgetD at h
    exact h

theorem optionsSelectPart_dget_ne (d d' : Dict) (k : String)
    (hd : optionsSelectPart d = some d') (h : k ≠ "follow_up_options") :
    dget d' k = dget d k := by
  unfold optionsSelectPart at hd
  simp only [] at hd
  repeat' split at hd
  all_goals first
    | exact Option.noConfusion hd
    | (simp only [Option.some.injEq] at hd; subst hd;
       simp [dget_dset_ne, h])

theorem optionsTextPart_dget_ne (d d' : Dict) (k : String)
    (hd : optionsTextPart d = some d') (h1 : k ≠ "follow_up_type")
    (h2 : k ≠ "follow_up_options") (h3 : k ≠ "follow_up_question") :
    dget d' k = dget d k := by
  unfold optionsTextPart at hd
  simp only [] at hd
  repeat' split at hd
  all_goals first
    | exact Option.noConfusion hd
    | (simp only [Option.some.injEq] at hd; subst hd;
       simp [dget_dset_ne, h1, h2, h3])

theorem stageOptions_dget_ne (d d' : Dict) (k : String)
    (hd : stageOptions d = some d') (h1 : k ≠ "follow_up_type")
    (h2 : k ≠ "follow_up_options") (h3 : k ≠ "follow_up_question") :
    dget d' k = dget d k := by
  unfold stageOptions at hd
  split at hd
  · cases hsel : optionsSelectPart d with
    | none => rw [hsel] at hd; exact Option.noConfusion hd
    | some dmid =>
        rw [hsel] at hd
        rw [optionsTextPart_dget_ne dmid d' k hd h1 h2 h3,
            optionsSelectPart_dget_ne d dmid k hsel h2]
  · simp only [Option.some.injEq] at hd; subst hd; rfl

theorem stageScaleBackfill_dget_ne (d d' : Dict) (k : String)
    (hd : stageScaleBackfill d = some d') (h : k ≠ "follow_up_question") :
    dget d' k = dget d k := by
  unfold stageScaleBackfill at hd
  simp only [] at hd
  repeat' split at hd
  all_goals first
    | exact Option.noConfusion hd
    | (simp only [Option.some.injEq] at hd; subst hd;
       simp [dget_dset_ne, h])

theorem stageDefaults_dget_of_isSome (d : Dict) (k : String)
    (h : (dget d k).isSome) : dget (stageDefaults d) k = dget d k := by
  unfold stageDefaults
  rw [dget_dsetdefault_of_isSome, dget_dsetdefault_of_isSome,
      dget_dsetdefault_of_isSome, dget_dsetdefault_of_isSome,
      dget_dsetdefault_of_isSome, dget_dsetdefault_of_isSome,
      dget_dsetdefault_of_isSome, dget_dsetdefault_of_isSome,
      dget_dsetdefault_of_isSome, dget_dsetdefault_of_isSome,
      dget_dsetdefault_of_isSome, dget_dsetdefault_of_isSome,
      dget_dsetdefault_of_isSome, dget_dsetdefault_of_isSome,
      dget_dsetdefault_of_isSome] <;>
    repeat' apply isSome_dget_dsetdefault
  all_goals exact h

theorem stageMeds_dget_ne (d : Dict) (k : String) (h : k ≠ "medication") :
    dget (stageMeds d) k = dget d k := by
  unfold stageMeds
  repeat' split
  all_goals simp [dget_dset_ne, h]

theorem stageCanned_dget_ne (d : Dict) (k : String) (h : k ≠ "response") :
    dget (stageCanned d) k = dget d k := by
  unfold stageCanned
  split
  · exact dget_dset_ne _ _ _ _ h
  · rfl

theorem stageComplete_dget_ne (d : Dict) (k : String)
    (h1 : k ≠ "needs_follow_up") (h2 : k ≠ "follow_up_question")
    (h3 : k ≠ "can_provide_structured_response") (h4 : k ≠ "Symptoms")
    (h5 : k ≠ "Remedies") (h6 : k ≠ "Precautions") (h7 : k ≠ "Guidelines") :
    dget (stageComplete d) k = dget d k := by
  unfold stageComplete
  simp only [dget_ite, dget_dset_ne _ _ _ _ h1, dget_dset_ne _ _ _ _ h2,
    dget_dset_ne _ _ _ _ h3, dget_dset_ne _ _ _ _ h4,
    dget_dset_ne _ _ _ _ h5, dget_dset_ne _ _ _ _ h6,
    dget_dset_ne _ _ _ _ h7, ite_self]

theorem stageNonMedical_dget_ne (d : Dict) (k : String)
    (h1 : k ≠ "can_provide_structured_response") (h2 : k ≠ "Symptoms")
    (h3 : k ≠ "Remedies") (h4 : k ≠ "Precautions") (h5 : k ≠ "Guidelines")
    (h6 : k ≠ "medication") (h7 : k ≠ "needs_follow_up")
    (h8 : k ≠ "conversation_complete") :
    dget (stageNonMedical d) k = dget d k := by
  unfold stageNonMedical
  simp only [dget_ite, dget_dset_ne _ _ _ _ h1, dget_dset_ne _ _ _ _ h2,
    dget_dset_ne _ _ _ _ h3, dget_dset_ne _ _ _ _ h4,
    dget_dset_ne _ _ _ _ h5, dget_dset_ne _ _ _ _ h6,
    dget_dset_ne _ _ _ _ h7, dget_dset_ne _ _ _ _ h8, ite_self]

theorem stagePromptSync_dget_ne (d : Dict) (k : String)
    (h : k ≠ "is_medical_related_prompt") :
    dget (stagePromptSync d) k = dget d k := by
  unfold stagePromptSync
  repeat' split
  all_goals simp [dget_dset_ne, h]

theorem routeProcess_dget_ne (tm : Nat) (r : Dict) (k : String)
    (h1 : k ≠ "conversation_complete") (h2 : k ≠ "needs_follow_up")
    (h3 : k ≠ "follow_up_question")
    (h4 : k ≠ "can_provide_structured_response") (h5 : k ≠ "Disclaimer") :
    dget (routeProcess tm r) k = dget r k := by
  unfold routeProcess routeFix routeForce
  simp only []
  repeat' split
  all_goals simp [dget_dset_ne, dget_dsetdefault_ne, h1, h2, h3, h4, h5]

/-! ### Value lemmas for single stages -/

theorem stageDefaults_medical (d : Dict) :
    dget (stageDefaults d) "is_medical_related"
      = some ((dget d "is_medical_related").getD (.jBool true)) := by
  unfold stageDefaults
  simp [dget_dsetdefault_ne, dget_dsetdefault]

theorem stageDefaults_cc (d : Dict) :
    dget (stageDefaults d) "conversation_complete"
      = some ((dget d "conversation_complete").getD (.jBool false)) := by
  unfold stageDefaults
  simp [dget_dsetdefault_ne, dget_dsetdefault]

theorem stageDefaults_canProvide (d : Dict) :
    dget (stageDefaults d) "can_provide_structured_response"
      = some ((dget d "can_provide_structured_response").getD (.jBool false)) := by
  unfold stageDefaults
  simp [dget_dsetdefault_ne, dget_dsetdefault]

theorem stageDefaults_prompt (d : Dict) :
    dget (stageDefaults d) "is_medical_related_prompt"
      = some ((dget d "is_medical_related_prompt").getD
          (if ((dget d "is_medical_related").getD (.jBool true)).truthy
           then .jStr "Yes" else .jStr "No")) := by
  unfold stageDefaults
  simp [dget_dsetdefault_ne, dget_dsetdefault, dgetD]

theorem stageDefaults_dget_ne (d : Dict) (k : String)
    (h1 : k ≠ "rate_symptoms") (h2 : k ≠ "symptoms_to_rate")
    (h3 : k ≠ "is_medical_related") (h4 : k ≠ "is_medical_related_prompt")
    (h5 : k ≠ "can_provide_structured_response")
    (h6 : k ≠ "conversation_complete") (h7 : k ≠ "current_step")
    (h8 : k ≠ "total_steps") (h9 : k ≠ "Symptoms") (h10 : k ≠ "Remedies")
    (h11 : k ≠ "Precautions") (h12 : k ≠ "Guidelines") (h13 : k ≠ "medication")
    (h14 : k ≠ "Disclaimer") (h15 : k ≠ "image_search_term") :
    dget (stageDefaults d) k = dget d k := by
  unfold stageDefaults
  simp only [dget_dsetdefault_ne _ _ _ _ h1, dget_dsetdefault_ne _ _ _ _ h2,
    dget_dsetdefault_ne _ _ _ _ h3, dget_dsetdefault_ne _ _ _ _ h4,
    dget_dsetdefault_ne _ _ _ _ h5, dget_dsetdefault_ne _ _ _ _ h6,
    dget_dsetdefault_ne _ _ _ _ h7, dget_dsetdefault_ne _ _ _ _ h8,
    dget_dsetdefault_ne _ _ _ _ h9, dget_dsetdefault_ne _ _ _ _ h10,
    dget_dsetdefault_ne _ _ _ _ h11, dget_dsetdefault_ne _ _ _ _ h12,
    dget_dsetdefault_ne _ _ _ _ h13, dget_dsetdefault_ne _ _ _ _ h14,
    dget_dsetdefault_ne _ _ _ _ h15]

theorem stageCanned_response_of_truthy (d : Dict)
    (h : (dgetD d "can_provide_structured_response").truthy = true) :
    dget (stageCanned d) "response" = some (.jStr briefSummaryResponse) := by
  unfold stageCanned
  rw [if_pos h]
  exact dget_dset_self _ _ _

theorem stageComplete_id_of_not_cc (d : Dict)
    (h : (dgetD d "conversation_complete").truthy = false) :
    stageComplete d = d := by
  unfold stageComplete
  rw [if_neg]
  simp [h]

theorem stageComplete_nfu (d : Dict)
    (h : (dgetD d "conversation_complete").truthy = true) :
    dget (stageComplete d) "needs_follow_up" = some (.jBool false) := by
  unfold stageComplete
  rw [if_pos h]
  simp only []
  repeat' split
  all_goals simp [dget_dset_ne, dget_dset_self]

theorem stageComplete_fuq (d : Dict)
    (h : (dgetD d "conversation_complete").truthy = true) :
    dget (stageComplete d) "follow_up_question" = some (.jStr "") := by
  unfold stageComplete
  rw [if_pos h]
  simp only []
  repeat' split
  all_goals simp [dget_dset_ne, dget_dset_self]

theorem stageComplete_canProvide (d : Dict)
    (hcc : (dgetD d "conversation_complete").truthy = true)
    (hm : (dgetD d "is_medical_related").truthy = true) :
    dget (stageComplete d) "can_provide_structured_response"
      = some (.jBool true) := by
  unfold stageComplete
  rw [if_pos hcc]
  simp only []
  rw [if_pos]
  · repeat' split
    all_goals simp [dget_dset_ne, dget_dset_self]
  · unfold dgetD at hm ⊢
    rw [dget_dset_ne _ _ _ _ (by decide), dget_dset_ne _ _ _ _ (by decide)]
    exact hm

theorem stageNonMedical_id_of_medical (d : Dict)
    (h : (dgetD d "is_medical_related").truthy = true) :
    stageNonMedical d = d := by
  unfold stageNonMedical
  rw [if_neg]
  simp [h]

theorem stageNonMedical_facts (d : Dict)
    (h : (dgetD d "is_medical_related").truthy = false) :
    dget (stageNonMedical d) "can_provide_structured_response" = some (.jBool false)
    ∧ dget (stageNonMedical d) "Symptoms" = some (.jStr ".")
    ∧ dget (stageNonMedical d) "Remedies" = some (.jStr "")
    ∧ dget (stageNonMedical d) "Precautions" = some (.jStr "")
    ∧ dget (stageNonMedical d) "Guidelines" = some (.jStr "")
    ∧ dget (stageNonMedical d) "medication" = some (.jStrList [])
    ∧ dget (stageNonMedical d) "needs_follow_up" = some (.jBool false)
    ∧ dget (stageNonMedical d) "conversation_complete" = some (.jBool true) := by
  unfold stageNonMedical
  rw [if_pos (by simp [h])]
  refine ⟨?_, ?_, ?_, ?_, ?_, ?_, ?_, ?_⟩
  all_goals simp [dget_dset_ne, dget_dset_self]

theorem stagePromptSync_prompt (d : Dict) :
    dget (stagePromptSync d) "is_medical_related_prompt" =
      if ((dgetD d "is_medical_related").truthy
          && (dgetD d "is_medical_related_prompt").eqStr "No") = true
      then some (.jStr "Yes")
      else if (!(dgetD d "is_medical_related").truthy
          && (dgetD d "is_medical_related_prompt").eqStr "Yes") = true
      then some (.jStr "No")
      else dget d "is_medical_related_prompt" := by
  unfold stagePromptSync
  repeat' split
  all_goals simp_all [dget_dset_self]

/-! ### Presence monotonicity of each stage -/

theorem stage1_mono (cs es : Int) (d : Dict) (k : String)
    (h : (dget d k).isSome) : (dget (stage1 cs es d) k).isSome := by
  unfold stage1 stage1a stage1b stage1c
  simp only []
  repeat' split
  all_goals (repeat' first
    | apply isSome_dget_dset
    | apply isSome_dget_dsetdefault)
  all_goals exact h

theorem optionsSelectPart_mono (d d' : Dict) (k : String)
    (hd : optionsSelectPart d = some d') (h : (dget d k).isSome) :
    (dget d' k).isSome := by
  unfold optionsSelectPart at hd
  simp only [] at hd
  repeat' split at hd
  all_goals first
    | exact Option.noConfusion hd
    | (simp only [Option.some.injEq] at hd; subst hd;
       repeat' first
         | apply isSome_dget_dset
         | apply isSome_dget_dsetdefault
       exact h)

theorem optionsTextPart_mono (d d' : Dict) (k : String)
    (hd : optionsTextPart d = some d') (h : (dget d k).isSome) :
    (dget d' k).isSome := by
  unfold optionsTextPart at hd
  simp only [] at hd
  repeat' split at hd
  all_goals first
    | exact Option.noConfusion hd
    | (simp only [Option.some.injEq] at hd; subst hd;
       repeat' first
         | apply isSome_dget_dset
         | apply isSome_dget_dsetdefault
       exact h)

theorem stageOptions_mono (d d' : Dict) (k : String)
    (hd : stageOptions d = some d') (h : (dget d k).isSome) :
    (dget d' k).isSome := by
  unfold stageOptions at hd
  split at hd
  · cases hsel : optionsSelectPart d with
    | none => rw [hsel] at hd; exact Option.noConfusion hd
    | some dmid =>
        rw [hsel] at hd
        exact optionsTextPart_mono dmid d' k hd
          (optionsSelectPart_mono d dmid k hsel h)
  · simp only [Option.some.injEq] at hd; subst hd; exact h

theorem stageScaleBackfill_mono (d d' : Dict) (k : String)
    (hd : stageScaleBackfill d = some d') (h : (dget d k).isSome) :
    (dget d' k).isSome := by
  unfold stageScaleBackfill at hd
  simp only [] at hd
  repeat' split at hd
  all_goals first
    | exact Option.noConfusion hd
    | (simp only [Option.some.injEq] at hd; subst hd;
       repeat' first
         | apply isSome_dget_dset
         | apply isSome_dget_dsetdefault
       exact h)

theorem stageDefaults_mono (d : Dict) (k : String)
    (h : (dget d k).isSome) : (dget (stageDefaults d) k).isSome := by
  unfold stageDefaults
  repeat' apply isSome_dget_dsetdefault
  exact h

theorem stageMeds_mono (d : Dict) (k : String)
    (h : (dget d k).isSome) : (dget (stageMeds d) k).isSome := by
  unfold stageMeds
  repeat' split
  all_goals (repeat' first
    | apply isSome_dget_dset)
  all_goals exact h

theorem stageCanned_mono (d : Dict) (k : String)
    (h : (dget d k).isSome) : (dget (stageCanned d) k).isSome := by
  unfold stageCanned
  repeat' split
  all_goals (repeat' first
    | apply isSome_dget_dset)
  all_goals exact h

theorem stageComplete_mono (d : Dict) (k : String)
    (h : (dget d k).isSome) : (dget (stageComplete d) k).isSome := by
  unfold stageComplete
  simp only []
  repeat' split
  all_goals (repeat' first
    | apply isSome_dget_dset)
  all_goals exact h

theorem stageNonMedical_mono (d : Dict) (k : String)
    (h : (dget d k).isSome) : (dget (stageNonMedical d) k).isSome := by
  unfold stageNonMedical
  repeat' split
  all_goals (repeat' first
    | apply isSome_dget_dset)
  all_goals exact h

theorem stagePromptSync_mono (d : Dict) (k : String)
    (h : (dget d k).isSome) : (dget (stagePromptSync d) k).isSome := by
  unfold stagePromptSync
  repeat' split
  all_goals (repeat' first
    | apply isSome_dget_dset)
  all_goals exact h

theorem routeProcess_mono (tm : Nat) (r : Dict) (k : String)
    (h : (dget r k).isSome) : (dget (routeProcess tm r) k).isSome := by
  unfold routeProcess routeFix routeForce
  simp only []
  repeat' split
  all_goals (repeat' first
    | apply isSome_dget_dset
    | apply isSome_dget_dsetdefault)
  all_goals exact h

/-! ### Composite lemmas across the post-processing pipeline -/

theorem postCore_eq_some (cs es : Int) (reply out : Dict)
    (h : postCore cs es reply = some out) :
    ∃ dmid d, stageOptions (stage1 cs es reply) = some dmid
      ∧ stageScaleBackfill dmid = some d ∧ out = postTail d := by
  unfold postCore at h
  cases h1 : stageOptions (stage1 cs es reply) with
  | none => rw [h1] at h; exact Option.noConfusion h
  | some dmid =>
      rw [h1] at h
      dsimp only at h
      cases h2 : stageScaleBackfill dmid with
      | none =>
          rw [h2] at h
          exact Option.noConfusion h
      | some d =>
          rw [h2] at h
          dsimp only at h
          simp only [Option.some.injEq] at h
          exact ⟨dmid, d, rfl, h2, h.symm⟩

/-- The pre-pipeline (lines 868-942) only writes follow-up and progress
fields. -/
theorem prePipeline_dget_ne (cs es : Int) (reply dmid d : Dict) (k : String)
    (h1 : stageOptions (stage1 cs es reply) = some dmid)
    (h2 : stageScaleBackfill dmid = some d)
    (n1 : k ≠ "response") (n2 : k ≠ "current_step") (n3 : k ≠ "total_steps")
    (n4 : k ≠ "needs_follow_up") (n5 : k ≠ "follow_up_question")
    (n6 : k ≠ "follow_up_type") (n7 : k ≠ "follow_up_options") :
    dget d k = dget reply k := by
  rw [stageScaleBackfill_dget_ne _ _ _ h2 n5,
      stageOptions_dget_ne _ _ _ h1 n6 n7 n5,
      stage1_dget_ne _ _ _ _ n1 n2 n3 n4 n5 n6]

theorem postTail_dget_ne (d : Dict) (k : String)
    (h1 : k ≠ "rate_symptoms") (h2 : k ≠ "symptoms_to_rate")
    (h3 : k ≠ "is_medical_related") (h4 : k ≠ "is_medical_related_prompt")
    (h5 : k ≠ "can_provide_structured_response")
    (h6 : k ≠ "conversation_complete") (h7 : k ≠ "current_step")
    (h8 : k ≠ "total_steps") (h9 : k ≠ "Symptoms") (h10 : k ≠ "Remedies")
    (h11 : k ≠ "Precautions") (h12 : k ≠ "Guidelines") (h13 : k ≠ "medication")
    (h14 : k ≠ "Disclaimer") (h15 : k ≠ "image_search_term")
    (h16 : k ≠ "response") (h17 : k ≠ "needs_follow_up")
    (h18 : k ≠ "follow_up_question") :
    dget (postTail d) k = dget d k := by
  unfold postTail
  rw [stagePromptSync_dget_ne _ _ h4,
      stageNonMedical_dget_ne _ _ h5 h9 h10 h11 h12 h13 h17 h6,
      stageComplete_dget_ne _ _ h17 h18 h5 h9 h10 h11 h12,
      stageCanned_dget_ne _ _ h16,
      stageMeds_dget_ne _ _ h13,
      stageDefaults_dget_ne _ _ h1 h2 h3 h4 h5 h6 h7 h8 h9 h10 h11 h12 h13
        h14 h15]

/-- `is_medical_related` after the four stages up to `stageComplete`. -/
theorem tail4_medical (d : Dict) :
    dget (stageComplete (stageCanned (stageMeds (stageDefaults d))))
      "is_medical_related"
      = some ((dget d "is_medical_related").getD (.jBool true)) := by
  rw [stageComplete_dget_ne _ "is_medical_related" (by decide) (by decide)
        (by decide) (by decide) (by decide) (by decide) (by decide),
      stageCanned_dget_ne _ "is_medical_related" (by decide),
      stageMeds_dget_ne _ "is_medical_related" (by decide),
      stageDefaults_medical]

/-- `is_medical_related` after the five stages up to `stageNonMedical`. -/
theorem tail5_medical (d : Dict) :
    dget (stageNonMedical (stageComplete (stageCanned (stageMeds
        (stageDefaults d))))) "is_medical_related"
      = some ((dget d "is_medical_related").getD (.jBool true)) := by
  rw [stageNonMedical_dget_ne _ "is_medical_related" (by decide) (by decide)
        (by decide) (by decide) (by decide) (by decide) (by decide) (by decide),
      tail4_medical]

/-- `is_medical_related_prompt` after the five stages. -/
theorem tail5_prompt (d : Dict) :
    dget (stageNonMedical (stageComplete (stageCanned (stageMeds
        (stageDefaults d))))) "is_medical_related_prompt"
      = some ((dget d "is_medical_related_prompt").getD
          (if ((dget d "is_medical_related").getD (.jBool true)).truthy
           then .jStr "Yes" else .jStr "No")) := by
  rw [stageNonMedical_dget_ne _ "is_medical_related_prompt" (by decide)
        (by decide) (by decide) (by decide) (by decide) (by decide)
        (by decide) (by decide),
      stageComplete_dget_ne _ "is_medical_related_prompt" (by decide)
        (by decide) (by decide) (by decide) (by decide) (by decide) (by decide),
      stageCanned_dget_ne _ "is_medical_related_prompt" (by decide),
      stageMeds_dget_ne _ "is_medical_related_prompt" (by decide),
      stageDefaults_prompt]

theorem postTail_medical (d : Dict) :
    dget (postTail d) "is_medical_related"
      = some ((dget d "is_medical_related").getD (.jBool true)) := by
  unfold postTail
  rw [stagePromptSync_dget_ne _ "is_medical_related" (by decide), tail5_medical]

theorem postTail_total (d : Dict) (v : JValue)
    (h : dget d "total_steps" = some v) :
    dget (postTail d) "total_steps" = some v := by
  unfold postTail
  rw [stagePromptSync_dget_ne _ "total_steps" (by decide),
      stageNonMedical_dget_ne _ "total_steps" (by decide) (by decide)
        (by decide) (by decide) (by decide) (by decide) (by decide) (by decide),
      stageComplete_dget_ne _ "total_steps" (by decide) (by decide) (by decide)
        (by decide) (by decide) (by decide) (by decide),
      stageCanned_dget_ne _ "total_steps" (by decide),
      stageMeds_dget_ne _ "total_steps" (by decide),
      stageDefaults_dget_of_isSome d "total_steps"]
  · exact h
  · rw [h]; rfl

/-- A non-medical reply: all structured fields cleared, conversation
forced complete, after the whole tail. -/
theorem postTail_of_nonMedical (d : Dict)
    (hm : ((dget d "is_medical_related").getD (.jBool true)).truthy = false) :
    dget (postTail d) "can_provide_structured_response" = some (.jBool false)
    ∧ dget (postTail d) "Symptoms" = some (.jStr ".")
    ∧ dget (postTail d) "Remedies" = some (.jStr "")
    ∧ dget (postTail d) "Precautions" = some (.jStr "")
    ∧ dget (postTail d) "Guidelines" = some (.jStr "")
    ∧ dget (postTail d) "medication" = some (.jStrList [])
    ∧ dget (postTail d) "needs_follow_up" = some (.jBool false)
    ∧ dget (postTail d) "conversation_complete" = some (.jBool true) := by
  have h7 : (dgetD (stageComplete (stageCanned (stageMeds (stageDefaults d))))
      "is_medical_related").truthy = false := by
    unfold dgetD
    rw [tail4_medical]
    simpa using hm
  obtain ⟨f1, f2, f3, f4, f5, f6, f7, f8⟩ := stageNonMedical_facts _ h7
  unfold postTail
  refine ⟨?_, ?_, ?_, ?_, ?_, ?_, ?_, ?_⟩
  · rw [stagePromptSync_dget_ne _ "can_provide_structured_response" (by decide)]
    exact f1
  · rw [stagePromptSync_dget_ne _ "Symptoms" (by decide)]; exact f2
  · rw [stagePromptSync_dget_ne _ "Remedies" (by decide)]; exact f3
  · rw [stagePromptSync_dget_ne _ "Precautions" (by decide)]; exact f4
  · rw [stagePromptSync_dget_ne _ "Guidelines" (by decide)]; exact f5
  · rw [stagePromptSync_dget_ne _ "medication" (by decide)]; exact f6
  · rw [stagePromptSync_dget_ne _ "needs_follow_up" (by decide)]; exact f7
  · rw [stagePromptSync_dget_ne _ "conversation_complete" (by decide)]; exact f8

/-- A medical reply marked complete: follow-up cleared and the structured
response enabled, after the whole tail. -/
theorem postTail_of_medical_complete (d : Dict)
    (hm : ((dget d "is_medical_related").getD (.jBool true)).truthy = true)
    (hc : ((dget d "conversation_complete").getD (.jBool false)).truthy = true) :
    dget (postTail d) "needs_follow_up" = some (.jBool false)
    ∧ dget (postTail d) "follow_up_question" = some (.jStr "")
    ∧ dget (postTail d) "can_provide_structured_response"
        = some (.jBool true) := by
  have hcc6 : (dgetD (stageCanned (stageMeds (stageDefaults d)))
      "conversation_complete").truthy = true := by
    unfold dgetD
    rw [stageCanned_dget_ne _ "conversation_complete" (by decide),
        stageMeds_dget_ne _ "conversation_complete" (by decide),
        stageDefaults_cc]
    simpa using hc
  have hm6 : (dgetD (stageCanned (stageMeds (stageDefaults d)))
      "is_medical_related").truthy = true := by
    unfold dgetD
    rw [stageCanned_dget_ne _ "is_medical_related" (by decide),
        stageMeds_dget_ne _ "is_medical_related" (by decide),
        stageDefaults_medical]
    simpa using hm
  have hm7 : (dgetD (stageComplete (stageCanned (stageMeds (stageDefaults d))))
      "is_medical_related").truthy = true := by
    unfold dgetD
    rw [tail4_medical]
    simpa using hm
  unfold postTail
  rw [stageNonMedical_id_of_medical _ hm7]
  refine ⟨?_, ?_, ?_⟩
  · rw [stagePromptSync_dget_ne _ "needs_follow_up" (by decide)]
    exact stageComplete_nfu _ hcc6
  · rw [stagePromptSync_dget_ne _ "follow_up_question" (by decide)]
    exact stageComplete_fuq _ hcc6
  · rw [stagePromptSync_dget_ne _ "can_provide_structured_response" (by decide)]
    exact stageComplete_canProvide _ hcc6 hm6

/-- For a medical reply the tail passes `conversation_complete` through. -/
theorem postTail_cc_of_medical (d : Dict)
    (hm : ((dget d "is_medical_related").getD (.jBool true)).truthy = true) :
    dget (postTail d) "conversation_complete"
      = some ((dget d "conversation_complete").getD (.jBool false)) := by
  have hm7 : (dgetD (stageComplete (stageCanned (stageMeds (stageDefaults d))))
      "is_medical_related").truthy = true := by
    unfold dgetD
    rw [tail4_medical]
    simpa using hm
  unfold postTail
  rw [stageNonMedical_id_of_medical _ hm7,
      stagePromptSync_dget_ne _ "conversation_complete" (by decide),
      stageComplete_dget_ne _ "conversation_complete" (by decide) (by decide)
        (by decide) (by decide) (by decide) (by decide) (by decide),
      stageCanned_dget_ne _ "conversation_complete" (by decide),
      stageMeds_dget_ne _ "conversation_complete" (by decide),
      stageDefaults_cc]

/-- A reply that itself enables the structured response gets the canned
summary text. -/
theorem postTail_response_of_canProvide (d : Dict)
    (h : ((dget d "can_provide_structured_response").getD
        (.jBool false)).truthy = true) :
    dget (postTail d) "response" = some (.jStr briefSummaryResponse) := by
  have h5 : (dgetD (stageMeds (stageDefaults d))
      "can_provide_structured_response").truthy = true := by
    unfold dgetD
    rw [stageMeds_dget_ne _ "can_provide_structured_response" (by decide),
        stageDefaults_canProvide]
    simpa using h
  unfold postTail
  rw [stagePromptSync_dget_ne _ "response" (by decide),
      stageNonMedical_dget_ne _ "response" (by decide) (by decide) (by decide)
        (by decide) (by decide) (by decide) (by decide) (by decide),
      stageComplete_dget_ne _ "response" (by decide) (by decide) (by decide)
        (by decide) (by decide) (by decide) (by decide)]
  exact stageCanned_response_of_truthy _ h5

/-- The boolean/string medical flags are synchronised by the tail when the
reply is well typed on those two fields. -/
theorem postTail_prompt_sync (d : Dict) (b : Bool)
    (hmed : (dget d "is_medical_related").getD (.jBool true) = .jBool b)
    (hpr : dget d "is_medical_related_prompt" = none
         ∨ dget d "is_medical_related_prompt" = some (.jStr "Yes")
         ∨ dget d "is_medical_related_prompt" = some (.jStr "No")) :
    dget (postTail d) "is_medical_related_prompt"
      = some (.jStr (if b then "Yes" else "No")) := by
  have hm5 : dgetD (stageNonMedical (stageComplete (stageCanned (stageMeds
      (stageDefaults d))))) "is_medical_related" = .jBool b := by
    unfold dgetD
    rw [tail5_medical, hmed]
    rfl
  have hp5 := tail5_prompt d
  unfold postTail
  rw [stagePromptSync_prompt, hm5]
  rcases hpr with h | h | h <;> rw [h] at hp5 <;> cases b <;>
    simp_all [dgetD, hmed, JValue.truthy, JValue.eqStr]

/-! ### Case analysis of the retry loop and the route failsafes -/

theorem geminiInteractive_eq (cs es : Int) (o1 o2 o3 : CallOutcome) :
    geminiInteractive cs es o1 o2 o3 = fallbackDict
    ∨ ∃ reply,
        (o1 = .replied (some reply) ∨ (o1 = .failed ∧ o2 = .replied (some reply))
          ∨ (o1 = .failed ∧ o2 = .failed ∧ o3 = .replied (some reply)))
        ∧ geminiInteractive cs es o1 o2 o3 = giResult cs es reply := by
  rcases o1 with _ | p1
  · rcases o2 with _ | p2
    · rcases o3 with _ | p3
      · exact Or.inl rfl
      · rcases p3 with _ | r3
        · exact Or.inl rfl
        · exact Or.inr ⟨r3, Or.inr (Or.inr ⟨rfl, rfl, rfl⟩), rfl⟩
    · rcases p2 with _ | r2
      · exact Or.inl rfl
      · exact Or.inr ⟨r2, Or.inr (Or.inl ⟨rfl, rfl⟩), rfl⟩
  · rcases p1 with _ | r1
    · exact Or.inl rfl
    · exact Or.inr ⟨r1, Or.inl rfl, rfl⟩

theorem routeForce_id_of (tm : Nat) (x : Dict)
    (h1 : ¬ ((!(dgetD x "conversation_complete").truthy
        && decide (100 ≤ tm)) = true)) :
    routeForce tm x = x := by
  unfold routeForce
  rw [if_neg h1]

theorem routeFix_id_of (x : Dict)
    (h2 : ¬ (((dgetD x "conversation_complete").truthy
        && (dgetD x "needs_follow_up").truthy) = true)) :
    routeFix x = x := by
  unfold routeFix
  rw [if_neg h2]

/-- When neither failsafe fires the route only adds the disclaimer. -/
theorem routeProcess_eq_of (tm : Nat) (x : Dict)
    (h1 : ¬ ((!(dgetD x "conversation_complete").truthy
        && decide (100 ≤ tm)) = true))
    (h2 : ¬ (((dgetD x "conversation_complete").truthy
        && (dgetD x "needs_follow_up").truthy) = true)) :
    routeProcess tm x = dsetdefault x "Disclaimer" (.jStr STANDARD_DISCLAIMER) := by
  unfold routeProcess
  rw [routeForce_id_of tm x h1, routeFix_id_of x h2]

/-- The length failsafe rewrites the follow-up fields and forces
completion (`app.py` lines 158-165). -/
theorem routeForce_facts (tm : Nat) (r : Dict)
    (hcc : (dgetD r "conversation_complete").truthy = false)
    (htm : 100 ≤ tm) :
    dget (routeForce tm r) "conversation_complete" = some (.jBool true)
    ∧ dget (routeForce tm r) "needs_follow_up" = some (.jBool false)
    ∧ dget (routeForce tm r) "follow_up_question" = some (.jStr "")
    ∧ (((dget r "is_medical_related").getD (.jBool true)).truthy = true →
        dget (routeForce tm r) "can_provide_structured_response"
          = some (.jBool true)) := by
  have hmm : dget (dset (dset (dset r "conversation_complete" (.jBool true))
      "needs_follow_up" (.jBool false)) "follow_up_question" (.jStr ""))
      "is_medical_related" = dget r "is_medical_related" := by
    rw [dget_dset_ne _ _ _ _ (by decide), dget_dset_ne _ _ _ _ (by decide),
        dget_dset_ne _ _ _ _ (by decide)]
  unfold routeForce
  simp only []
  rw [if_pos (by simp [hcc, htm]), hmm]
  by_cases hmed : ((dget r "is_medical_related").getD (.jBool true)).truthy
      = true
  · rw [if_pos hmed]
    refine ⟨?_, ?_, ?_, fun _ => ?_⟩
    · rw [dget_dset_ne _ _ _ _ (by decide), dget_dset_ne _ _ _ _ (by decide),
          dget_dset_ne _ _ _ _ (by decide), dget_dset_self]
    · rw [dget_dset_ne _ _ _ _ (by decide), dget_dset_ne _ _ _ _ (by decide),
          dget_dset_self]
    · rw [dget_dset_ne _ _ _ _ (by decide), dget_dset_self]
    · exact dget_dset_self _ _ _
  · rw [if_neg hmed]
    refine ⟨?_, ?_, ?_, fun hm => ?_⟩
    · rw [dget_dset_ne _ _ _ _ (by decide), dget_dset_ne _ _ _ _ (by decide),
          dget_dset_self]
    · rw [dget_dset_ne _ _ _ _ (by decide), dget_dset_self]
    · exact dget_dset_self _ _ _
    · exact absurd hm hmed

/-- The length failsafe through the whole route post-processing. -/
theorem routeProcess_forced (tm : Nat) (r : Dict)
    (hcc : (dgetD r "conversation_complete").truthy = false)
    (htm : 100 ≤ tm) :
    dget (routeProcess tm r) "conversation_complete" = some (.jBool true)
    ∧ dget (routeProcess tm r) "needs_follow_up" = some (.jBool false)
    ∧ dget (routeProcess tm r) "follow_up_question" = some (.jStr "")
    ∧ (((dget r "is_medical_related").getD (.jBool true)).truthy = true →
        dget (routeProcess tm r) "can_provide_structured_response"
          = some (.jBool true)) := by
  obtain ⟨f1, f2, f3, f4⟩ := routeForce_facts tm r hcc htm
  have hfix : routeFix (routeForce tm r) = routeForce tm r :=
    routeFix_id_of _ (by simp [dgetD, f2, JValue.truthy])
  unfold routeProcess
  rw [hfix]
  refine ⟨?_, ?_, ?_, fun hm => ?_⟩ <;>
    rw [dget_dsetdefault_ne _ _ _ _ (by decide)]
  · exact f1
  · exact f2
  · exact f3
  · exact f4 hm

/-! ### The repaired completion invariant (amended C1) -/

/-- A payload marked complete needs no follow-up, and carries an empty
follow-up question whenever it is also marked medical. -/
def CompleteInvariant (out : Dict) : Prop :=
  (dgetD out "conversation_complete").truthy = true →
    dget out "needs_follow_up" = some (.jBool false)
    ∧ ((dgetD out "is_medical_related").truthy = true →
        dget out "follow_up_question" = some (.jStr ""))

instance (out : Dict) : Decidable (CompleteInvariant out) := by
  unfold CompleteInvariant
  infer_instance

theorem completeInvariant_postTail (d : Dict) :
    CompleteInvariant (postTail d) := by
  intro hcc
  by_cases hm : ((dget d "is_medical_related").getD (.jBool true)).truthy = true
  · have hccd := postTail_cc_of_medical d hm
    have hc : ((dget d "conversation_complete").getD (.jBool false)).truthy
        = true := by
      unfold dgetD at hcc
      rw [hccd] at hcc
      simpa using hcc
    obtain ⟨f1, f2, _⟩ := postTail_of_medical_complete d hm hc
    exact ⟨f1, fun _ => f2⟩
  · have hm' : ((dget d "is_medical_related").getD (.jBool true)).truthy
        = false := by simpa using hm
    obtain ⟨_, _, _, _, _, _, g7, _⟩ := postTail_of_nonMedical d hm'
    refine ⟨g7, fun hmed => ?_⟩
    exfalso
    rw [dgetD, postTail_medical d] at hmed
    simp only [Option.getD_some] at hmed
    exact hm hmed

theorem completeInvariant_fallback : CompleteInvariant fallbackDict := by
  intro hcc
  exact absurd hcc (by decide)

theorem completeInvariant_giResult (cs es : Int) (reply : Dict) :
    CompleteInvariant (giResult cs es reply) := by
  cases hp : postCore cs es reply with
  | none =>
      unfold giResult
      rw [hp]
      exact completeInvariant_fallback
  | some out =>
      unfold giResult
      rw [hp]
      simp only [Option.getD_some]
      obtain ⟨dmid, d, _, _, hout⟩ := postCore_eq_some _ _ _ _ hp
      rw [hout]
      exact completeInvariant_postTail d

theorem completeInvariant_gi (cs es : Int) (o1 o2 o3 : CallOutcome) :
    CompleteInvariant (geminiInteractive cs es o1 o2 o3) := by
  rcases geminiInteractive_eq cs es o1 o2 o3 with hf | ⟨reply, _, hr⟩
  · rw [hf]; decide
  · rw [hr]; exact completeInvariant_giResult cs es reply

theorem completeInvariant_routeProcess (tm : Nat) (r : Dict)
    (hr : CompleteInvariant r) : CompleteInvariant (routeProcess tm r) := by
  by_cases h1 : (!(dgetD r "conversation_complete").truthy
      && decide (100 ≤ tm)) = true
  · have h1' := h1
    rw [Bool.and_eq_true] at h1'
    obtain ⟨ha, hb⟩ := h1'
    have hcc : (dgetD r "conversation_complete").truthy = false := by
      simpa using ha
    have htm : 100 ≤ tm := of_decide_eq_true hb
    obtain ⟨_, p2, p3, _⟩ := routeProcess_forced tm r hcc htm
    exact fun _ => ⟨p2, fun _ => p3⟩
  · by_cases h2 : (dgetD r "conversation_complete").truthy = true
    · obtain ⟨hn, hf⟩ := hr h2
      have hnb : (dgetD r "needs_follow_up").truthy = false := by
        rw [dgetD, hn]; rfl
      rw [routeProcess_eq_of tm r h1 (by simp [hnb])]
      intro _
      refine ⟨?_, fun hmed => ?_⟩
      · rw [dget_dsetdefault_ne _ _ _ _ (by decide)]; exact hn
      · rw [dget_dsetdefault_ne _ _ _ _ (by decide)]
        apply hf
        rw [dgetD] at hmed ⊢
        rwa [dget_dsetdefault_ne _ _ _ _ (by decide)] at hmed
    · have h2' : (dgetD r "conversation_complete").truthy = false := by
        simpa using h2
      rw [routeProcess_eq_of tm r h1 (by simp [h2'])]
      intro hcc'
      exfalso
      rw [dgetD, dget_dsetdefault_ne _ _ _ _ (by decide)] at hcc'
      rw [dgetD] at h2'
      rw [h2'] at hcc'
      exact Bool.false_ne_true hcc'

/-! ### Support for the length-failsafe claim (amended C6) -/

/-- The reply parsed from an attempt outcome (if any) stores
`conversation_complete` as a boolean or not at all. -/
def OutcomeCcOk : CallOutcome → Prop
  | .failed => True
  | .replied none => True
  | .replied (some r) =>
      dget r "conversation_complete" = none
      ∨ ∃ b : Bool, dget r "conversation_complete" = some (.jBool b)

/-- The payload stores `conversation_complete` as exactly `true`, or as a
falsy value. -/
def CcBoolean (x : Dict) : Prop :=
  dget x "conversation_complete" = some (.jBool true)
  ∨ (dgetD x "conversation_complete").truthy = false

theorem giResult_cc_facts (cs es : Int) (reply : Dict)
    (hw : dget reply "conversation_complete" = none
        ∨ ∃ b : Bool, dget reply "conversation_complete" = some (.jBool b)) :
    CcBoolean (giResult cs es reply)
    ∧ ((dgetD (giResult cs es reply) "is_medical_related").truthy = true →
       (dgetD (giResult cs es reply) "conversation_complete").truthy = true →
       dget (giResult cs es reply) "can_provide_structured_response"
         = some (.jBool true)) := by
  cases hp : postCore cs es reply with
  | none =>
      unfold giResult
      rw [hp]
      simp only [Option.getD_none]
      exact ⟨Or.inr (by decide), fun _ hcc => absurd hcc (by decide)⟩
  | some out =>
      unfold giResult
      rw [hp]
      simp only [Option.getD_some]
      obtain ⟨dmid, d, h1, h2, hout⟩ := postCore_eq_some _ _ _ _ hp
      rw [hout]
      by_cases hm : ((dget d "is_medical_related").getD (.jBool true)).truthy
          = true
      · have hccd := postTail_cc_of_medical d hm
        have hdd : dget d "conversation_complete"
            = dget reply "conversation_complete" :=
          prePipeline_dget_ne cs es reply dmid d _ h1 h2 (by decide) (by decide)
            (by decide) (by decide) (by decide) (by decide) (by decide)
        constructor
        · rcases hw with hn | ⟨b, hb⟩
          · right
            rw [dgetD, hccd, hdd, hn]
            rfl
          · cases b
            · right
              rw [dgetD, hccd, hdd, hb]
              rfl
            · left
              rw [hccd, hdd, hb]
              rfl
        · intro _ hcc
          have hc : ((dget d "conversation_complete").getD
              (.jBool false)).truthy = true := by
            rw [dgetD, hccd] at hcc
            simpa using hcc
          exact (postTail_of_medical_complete d hm hc).2.2
      · have hm' : ((dget d "is_medical_related").getD (.jBool true)).truthy
            = false := by simpa using hm
        obtain ⟨_, _, _, _, _, _, _, g8⟩ := postTail_of_nonMedical d hm'
        refine ⟨Or.inl g8, fun hmed _ => ?_⟩
        exfalso
        rw [dgetD, postTail_medical d] at hmed
        simp only [Option.getD_some] at hmed
        exact hm hmed

theorem gi_cc_facts (cs es : Int) (o1 o2 o3 : CallOutcome)
    (hc1 : OutcomeCcOk o1) (hc2 : OutcomeCcOk o2) (hc3 : OutcomeCcOk o3) :
    CcBoolean (geminiInteractive cs es o1 o2 o3)
    ∧ ((dgetD (geminiInteractive cs es o1 o2 o3)
          "is_medical_related").truthy = true →
       (dgetD (geminiInteractive cs es o1 o2 o3)
          "conversation_complete").truthy = true →
       dget (geminiInteractive cs es o1 o2 o3)
         "can_provide_structured_response" = some (.jBool true)) := by
  rcases geminiInteractive_eq cs es o1 o2 o3 with hf | ⟨reply, hor, hr⟩
  · rw [hf]
    exact ⟨Or.inr (by decide), fun _ hcc => absurd hcc (by decide)⟩
  · rw [hr]
    apply giResult_cc_facts
    rcases hor with h | ⟨_, h⟩ | ⟨_, _, h⟩
    · rw [h] at hc1; exact hc1
    · rw [h] at hc2; exact hc2
    · rw [h] at hc3; exact hc3

/-- The guarantees of the length failsafe, given the facts the core
function provides about its own result. -/
theorem routeProcess_complete_facts (tm : Nat) (r : Dict)
    (htm : 100 ≤ tm) (hb : CcBoolean r) (hinv : CompleteInvariant r)
    (hcp : (dgetD r "is_medical_related").truthy = true →
       (dgetD r "conversation_complete").truthy = true →
       dget r "can_provide_structured_response" = some (.jBool true)) :
    dget (routeProcess tm r) "conversation_complete" = some (.jBool true)
    ∧ dget (routeProcess tm r) "needs_follow_up" = some (.jBool false)
    ∧ ((dgetD (routeProcess tm r) "is_medical_related").truthy = true →
        dget (routeProcess tm r) "can_provide_structured_response"
          = some (.jBool true)
        ∧ dget (routeProcess tm r) "follow_up_question" = some (.jStr "")) := by
  have hmedpres : dget (routeProcess tm r) "is_medical_related"
      = dget r "is_medical_related" :=
    routeProcess_dget_ne tm r _ (by decide) (by decide) (by decide)
      (by decide) (by decide)
  rcases hb with hccT | hccF
  · have hcct : (dgetD r "conversation_complete").truthy = true := by
      rw [dgetD, hccT]; rfl
    obtain ⟨hn, hf⟩ := hinv hcct
    have hnb : (dgetD r "needs_follow_up").truthy = false := by
      rw [dgetD, hn]; rfl
    have heq := routeProcess_eq_of tm r (by simp [hcct]) (by simp [hnb])
    rw [heq]
    refine ⟨?_, ?_, fun hmed => ⟨?_, ?_⟩⟩
    · rw [dget_dsetdefault_ne _ _ _ _ (by decide)]; exact hccT
    · rw [dget_dsetdefault_ne _ _ _ _ (by decide)]; exact hn
    · rw [dget_dsetdefault_ne _ _ _ _ (by decide)]
      apply hcp _ hcct
      rw [dgetD] at hmed ⊢
      rwa [dget_dsetdefault_ne _ _ _ _ (by decide)] at hmed
    · rw [dget_dsetdefault_ne _ _ _ _ (by decide)]
      apply hf
      rw [dgetD] at hmed ⊢
      rwa [dget_dsetdefault_ne _ _ _ _ (by decide)] at hmed
  · obtain ⟨p1, p2, p3, p4⟩ := routeProcess_forced tm r hccF htm
    refine ⟨p1, p2, fun hmed => ⟨?_, p3⟩⟩
    apply p4
    rw [dgetD, hmedpres] at hmed
    cases hmr : dget r "is_medical_related" with
    | none => rfl
    | some v =>
        rw [hmr] at hmed
        simpa using hmed

/-! ### Presence of the documented fields (amended C3) -/

theorem stage1_present4 (cs es : Int) (d : Dict) :
    (dget (stage1 cs es d) "response").isSome
    ∧ (dget (stage1 cs es d) "needs_follow_up").isSome
    ∧ (dget (stage1 cs es d) "follow_up_question").isSome
    ∧ (dget (stage1 cs es d) "follow_up_type").isSome := by
  unfold stage1 stage1a stage1b stage1c
  simp only []
  refine ⟨?_, ?_, ?_, ?_⟩
  all_goals (repeat' first
    | exact isSome_dget_dsetdefault_self _ _ _
    | apply isSome_dget_dsetdefault
    | apply isSome_dget_dset
    | split)

theorem stageDefaults_present (d : Dict) (k : String)
    (hk : k ∈ ["rate_symptoms", "symptoms_to_rate", "is_medical_related",
      "is_medical_related_prompt", "can_provide_structured_response",
      "conversation_complete", "current_step", "total_steps", "Symptoms",
      "Remedies", "Precautions", "Guidelines", "medication", "Disclaimer",
      "image_search_term"]) :
    (dget (stageDefaults d) k).isSome := by
  simp only [List.mem_cons, List.not_mem_nil, or_false] at hk
  unfold stageDefaults
  rcases hk with rfl | rfl | rfl | rfl | rfl | rfl | rfl | rfl | rfl | rfl
    | rfl | rfl | rfl | rfl | rfl
  all_goals simp [dget_dsetdefault_ne, dget_dsetdefault]

/-- The four tail stages after `stageDefaults` preserve key presence. -/
theorem tail_mono (d : Dict) (k : String)
    (h : (dget (stageDefaults d) k).isSome) :
    (dget (postTail d) k).isSome := by
  unfold postTail
  exact stagePromptSync_mono _ _ (stageNonMedical_mono _ _
    (stageComplete_mono _ _ (stageCanned_mono _ _ (stageMeds_mono _ _ h))))

/-! ### Shape of the medication splitting (C8) -/

/-- A string matching the regex `[A-Z][a-z]*`. -/
def CapRunShape (l : List Char) : Prop :=
  ∃ c cs, l = c :: cs ∧ c.isUpper = true ∧ ∀ u ∈ cs, u.isLower = true

theorem pushRun_mem (cur : List Char) (acc : List String) (r : String)
    (h : r ∈ pushRun cur acc) :
    (cur ≠ [] ∧ r = String.mk cur.reverse) ∨ r ∈ acc := by
  unfold pushRun at h
  split at h
  · exact Or.inr h
  · rename_i hcur
    rcases List.mem_cons.mp h with h | h
    · exact Or.inl ⟨by simpa [List.isEmpty_iff] using hcur, h⟩
    · exact Or.inr h

theorem capRunShape_append (l : List Char) (c : Char)
    (h : CapRunShape l) (hc : c.isLower = true) : CapRunShape (l ++ [c]) := by
  obtain ⟨c0, cs0, rfl, hup, hlow⟩ := h
  refine ⟨c0, cs0 ++ [c], by simp, hup, ?_⟩
  intro u hu
  rcases List.mem_append.mp hu with h | h
  · exact hlow u h
  · rw [List.mem_singleton.mp h]
    exact hc

theorem capRunsGo_shape (cs cur : List Char) (acc : List String)
    (hcur : cur ≠ [] → CapRunShape cur.reverse)
    (hacc : ∀ r ∈ acc, CapRunShape r.data) :
    ∀ r ∈ capRunsGo cs cur acc, CapRunShape r.data := by
  induction cs generalizing cur acc with
  | nil =>
      intro r hr
      unfold capRunsGo at hr
      rw [List.mem_reverse] at hr
      rcases pushRun_mem _ _ _ hr with ⟨hne, rfl⟩ | hin
      · simpa using hcur hne
      · exact hacc r hin
  | cons c rest ih =>
      intro r hr
      unfold capRunsGo at hr
      split at hr
      · rename_i hup
        refine ih [c] (pushRun cur acc) ?_ ?_ r hr
        · intro _
          exact ⟨c, [], rfl, hup, by intro u hu; cases hu⟩
        · intro r' hr'
          rcases pushRun_mem _ _ _ hr' with ⟨hne, rfl⟩ | hin
          · simpa using hcur hne
          · exact hacc r' hin
      · split at hr
        · split at hr
          · exact ih [] acc (fun h => absurd rfl h) hacc r hr
          · rename_i hlow hne
            refine ih (c :: cur) acc ?_ hacc r hr
            intro _
            have hcur' := hcur (by simpa [List.isEmpty_iff] using hne)
            simpa using capRunShape_append cur.reverse c hcur' hlow
        · refine ih [] (pushRun cur acc) (fun h => absurd rfl h) ?_ r hr
          intro r' hr'
          rcases pushRun_mem _ _ _ hr' with ⟨hne, rfl⟩ | hin
          · simpa using hcur hne
          · exact hacc r' hin

theorem capFindall_shape (s : String) :
    ∀ r ∈ capFindall s, CapRunShape r.data :=
  capRunsGo_shape s.data [] [] (fun h => absurd rfl h)
    (fun r hr => absurd hr (List.not_mem_nil r))

theorem capRunsGo_nil_of_no_upper (cs : List Char)
    (h : ∀ c ∈ cs, c.isUpper = false) : capRunsGo cs [] [] = [] := by
  induction cs with
  | nil => rfl
  | cons c rest ih =>
      have hc := h c (by simp)
      have hrest : ∀ u ∈ rest, u.isUpper = false := fun u hu => h u (by simp [hu])
      unfold capRunsGo
      rw [if_neg (by simp [hc])]
      by_cases hl : c.isLower = true
      · rw [if_pos hl]
        simpa using ih hrest
      · rw [if_neg hl]
        simpa [pushRun] using ih hrest

theorem capFindall_nil_of_no_upper (s : String)
    (h : ∀ c ∈ s.data, c.isUpper = false) : capFindall s = [] :=
  capRunsGo_nil_of_no_upper s.data h

/-- The dict-level medication rewrite. -/
theorem stageMeds_value (d : Dict) (meds : List String)
    (h : dget d "medication" = some (.jStrList meds)) :
    dget (stageMeds d) "medication"
      = some (.jStrList (meds.map splitMedEntry).flatten) := by
  unfold stageMeds
  rw [h]
  exact dget_dset_self _ _ _

/-! ## The claims -/

/-- A model reply that is non-medical but carries a stale follow-up
question; the non-medical block (lines 1009-1018) forces
`conversation_complete` without clearing `follow_up_question`. -/
def c1Reply : Dict :=
  [("is_medical_related", .jBool false),
   ("conversation_complete", .jBool false),
   ("needs_follow_up", .jBool false),
   ("follow_up_question", .jStr "Do you want to hear a joke?")]

/-- C1 as stated is FALSE: a non-medical reply with a stale
`follow_up_question` yields a payload with `conversation_complete = true`
and a non-empty `follow_up_question`, both in the dict returned by
`gemini_interactive` and in the payload returned by the
`/gemini-interactive` route. -/
theorem claim1_counterexample :
    dget (giResult 1 4 c1Reply) "conversation_complete" = some (.jBool true)
    ∧ dget (giResult 1 4 c1Reply) "follow_up_question"
        = some (.jStr "Do you want to hear a joke?")
    ∧ ¬ dget (giResult 1 4 c1Reply) "follow_up_question" = some (.jStr "")
    ∧ dget (routeHandle "Tell me something fun" 1 1 4
        (.replied (some c1Reply)) .failed .failed) "conversation_complete"
        = some (.jBool true)
    ∧ dget (routeHandle "Tell me something fun" 1 1 4
        (.replied (some c1Reply)) .failed .failed) "follow_up_question"
        = some (.jStr "Do you want to hear a joke?") := by
  decide

/-- C1 (amended): every dict returned by `gemini_interactive`, and every
payload produced from it by the route failsafes, as well as the fixed
restart and error payloads, satisfies: `conversation_complete` truthy
implies `needs_follow_up = false`, and additionally
`follow_up_question = ""` whenever the payload is medical
(`is_medical_related` truthy); a non-medical reply may retain a stale
follow-up question. -/
theorem claim1_amended (cs es : Int) (o1 o2 o3 : CallOutcome) (tm : Nat)
    (en et : String) :
    CompleteInvariant (geminiInteractive cs es o1 o2 o3)
    ∧ CompleteInvariant (routeProcess tm (geminiInteractive cs es o1 o2 o3))
    ∧ CompleteInvariant restartPayload
    ∧ CompleteInvariant (errorPayload en et) := by
  refine ⟨completeInvariant_gi cs es o1 o2 o3,
    completeInvariant_routeProcess tm _ (completeInvariant_gi cs es o1 o2 o3),
    by decide, ?_⟩
  intro _
  refine ⟨?_, fun _ => ?_⟩ <;> simp [errorPayload, dget]

/-- C1 witness: the amended invariant evaluated on a concrete complete
reply. -/
theorem claim1_witness :
    dget (geminiInteractive 1 4
      (.replied (some [("conversation_complete", .jBool true)]))
      .failed .failed) "needs_follow_up" = some (.jBool false) :=
  ((claim1_amended 1 4 (.replied (some [("conversation_complete", .jBool true)]))
      .failed .failed 2 "E" "boom").1 (by decide)).1

/-- C2: every dict returned by `gemini_interactive` with
`is_medical_related = false` has Symptoms ".", empty
Remedies/Precautions/Guidelines, an empty medication list and
`conversation_complete = true` (lines 1009-1018). -/
theorem claim2_nonmedical_reset (cs es : Int) (o1 o2 o3 : CallOutcome)
    (h : dget (geminiInteractive cs es o1 o2 o3) "is_medical_related"
        = some (.jBool false)) :
    dget (geminiInteractive cs es o1 o2 o3) "Symptoms" = some (.jStr ".")
    ∧ dget (geminiInteractive cs es o1 o2 o3) "Remedies" = some (.jStr "")
    ∧ dget (geminiInteractive cs es o1 o2 o3) "Precautions" = some (.jStr "")
    ∧ dget (geminiInteractive cs es o1 o2 o3) "Guidelines" = some (.jStr "")
    ∧ dget (geminiInteractive cs es o1 o2 o3) "medication"
        = some (.jStrList [])
    ∧ dget (geminiInteractive cs es o1 o2 o3) "conversation_complete"
        = some (.jBool true) := by
  rcases geminiInteractive_eq cs es o1 o2 o3 with hf | ⟨reply, _, hr⟩
  · rw [hf] at h
    exact absurd h (by decide)
  · rw [hr] at h ⊢
    cases hp : postCore cs es reply with
    | none =>
        unfold giResult at h
        rw [hp] at h
        simp only [Option.getD_none] at h
        exact absurd h (by decide)
    | some out =>
        unfold giResult at h ⊢
        rw [hp] at h ⊢
        simp only [Option.getD_some] at h ⊢
        obtain ⟨dmid, d, h1, h2, hout⟩ := postCore_eq_some _ _ _ _ hp
        rw [hout] at h ⊢
        rw [postTail_medical] at h
        rw [Option.some.injEq] at h
        have hm : ((dget d "is_medical_related").getD (.jBool true)).truthy
            = false := by rw [h]; rfl
        obtain ⟨_, f2, f3, f4, f5, f6, _, f8⟩ := postTail_of_nonMedical d hm
        exact ⟨f2, f3, f4, f5, f6, f8⟩

/-- C2 witness: the reset evaluated on a concrete non-medical reply. -/
theorem claim2_witness :
    dget (geminiInteractive 1 4
      (.replied (some [("is_medical_related", .jBool false)]))
      .failed .failed) "Symptoms" = some (.jStr ".") :=
  (claim2_nonmedical_reset 1 4
    (.replied (some [("is_medical_related", .jBool false)])) .failed .failed
    (by decide)).1

/-- A model reply marked complete and medical but with
`can_provide_structured_response = false`: the repair on lines 995-997
enables the flag AFTER the canned-response overwrite on lines 984-989
already ran, so the verbose model text is kept. -/
def c4Reply : Dict :=
  [("conversation_complete", .jBool true),
   ("is_medical_related", .jBool true),
   ("can_provide_structured_response", .jBool false),
   ("response", .jStr "Here is a very long and detailed model answer.")]

/-- C4 as stated is FALSE: a returned dict can have
`can_provide_structured_response = true` while `response` is the model
text, not the canned summary. -/
theorem claim4_counterexample :
    dget (giResult 1 4 c4Reply) "can_provide_structured_response"
      = some (.jBool true)
    ∧ dget (giResult 1 4 c4Reply) "response"
        = some (.jStr "Here is a very long and detailed model answer.")
    ∧ ¬ dget (giResult 1 4 c4Reply) "response"
        = some (.jStr briefSummaryResponse) := by
  decide

/-- C4 (amended): whenever the MODEL REPLY itself carries a truthy
`can_provide_structured_response`, the returned dict's `response` equals
the fixed short summary message; when the flag is only enabled by the
completion repair, the model text is kept. -/
theorem claim4_amended (cs es : Int) (reply : Dict)
    (hcp : ((dget reply "can_provide_structured_response").getD
        (.jBool false)).truthy = true)
    (hok : (postCore cs es reply).isSome) :
    dget (giResult cs es reply) "response"
      = some (.jStr briefSummaryResponse) := by
  obtain ⟨out, hp⟩ := Option.isSome_iff_exists.mp hok
  obtain ⟨dmid, d, h1, h2, hout⟩ := postCore_eq_some _ _ _ _ hp
  unfold giResult
  rw [hp]
  simp only [Option.getD_some]
  rw [hout]
  apply postTail_response_of_canProvide
  rw [prePipeline_dget_ne cs es reply dmid d _ h1 h2 (by decide) (by decide)
      (by decide) (by decide) (by decide) (by decide) (by decide)]
  exact hcp

/-- C4 witness: the canned reply on a concrete reply that enables the
structured response itself. -/
theorem claim4_witness :
    dget (giResult 1 4 [("can_provide_structured_response", .jBool true)])
      "response" = some (.jStr briefSummaryResponse) :=
  claim4_amended 1 4 [("can_provide_structured_response", .jBool true)]
    (by decide) (by decide)

/-- C5: the external model is invoked at most 3 times, with a 1-second
pause between consecutive attempts after a failure; every failure mode
(all attempts failing, an unparseable reply, an exception inside the
post-processing) yields the fixed fallback dict, whose follow-up options
offer a retry; a parsed reply is post-processed by `giResult`.  The
function is total: no exception escapes. -/
theorem claim5_retry_fallback :
    (∀ o1 o2 o3 : CallOutcome, (runRetry o1 o2 o3).2.1 ≤ 3
      ∧ (runRetry o1 o2 o3).2.2 = List.replicate ((runRetry o1 o2 o3).2.1 - 1) 1)
    ∧ (∀ (cs es : Int) (o1 o2 o3 : CallOutcome), (runRetry o1 o2 o3).1 = none →
        geminiInteractive cs es o1 o2 o3 = fallbackDict)
    ∧ (∀ (cs es : Int) (o1 o2 o3 : CallOutcome),
        (runRetry o1 o2 o3).1 = some none →
        geminiInteractive cs es o1 o2 o3 = fallbackDict)
    ∧ (∀ (cs es : Int) (reply : Dict), postCore cs es reply = none →
        giResult cs es reply = fallbackDict)
    ∧ (∀ (cs es : Int) (o1 o2 o3 : CallOutcome) (reply : Dict),
        (runRetry o1 o2 o3).1 = some (some reply) →
        geminiInteractive cs es o1 o2 o3 = giResult cs es reply)
    ∧ dget fallbackDict "follow_up_options"
        = some (.jStrList ["Try asking again", "Start a new conversation"]) := by
  refine ⟨?_, ?_, ?_, ?_, ?_, by decide⟩
  · intro o1 o2 o3
    rcases o1 with _ | p1 <;> rcases o2 with _ | p2 <;> rcases o3 with _ | p3 <;>
      exact ⟨by simp [runRetry], rfl⟩
  · intro cs es o1 o2 o3 h
    rcases o1 with _ | p1
    · rcases o2 with _ | p2
      · rcases o3 with _ | p3
        · rfl
        · exact Option.noConfusion h
      · exact Option.noConfusion h
    · exact Option.noConfusion h
  · intro cs es o1 o2 o3 h
    rcases o1 with _ | p1
    · rcases o2 with _ | p2
      · rcases o3 with _ | p3
        · exact Option.noConfusion h
        · injection h with h
          subst h
          rfl
      · injection h with h
        subst h
        rfl
    · injection h with h
      subst h
      rfl
  · intro cs es reply h
    unfold giResult
    rw [h]
    rfl
  · intro cs es o1 o2 o3 reply h
    rcases o1 with _ | p1
    · rcases o2 with _ | p2
      · rcases o3 with _ | p3
        · exact Option.noConfusion h
        · injection h with h
          subst h
          rfl
      · injection h with h
        subst h
        rfl
    · injection h with h
      subst h
      rfl

/-- C5 witness: the retry/fallback behaviour evaluated at concrete
outcomes. -/
theorem claim5_witness :
    geminiInteractive 1 4 .failed .failed .failed = fallbackDict
    ∧ (runRetry .failed .failed .failed).2.1 ≤ 3 :=
  ⟨claim5_retry_fallback.2.1 1 4 .failed .failed .failed rfl,
   (claim5_retry_fallback.1 .failed .failed .failed).1⟩

/-- C3 as stated is FALSE: the restart payload omits most documented
fields (e.g. `Symptoms`) and carries the undocumented field
`conversation_restarted`. -/
theorem claim3_counterexample :
    dget (routeHandle "restart" 0 1 4 .failed .failed .failed) "Symptoms"
      = none
    ∧ "Symptoms" ∈ documentedFields
    ∧ dget (routeHandle "restart" 0 1 4 .failed .failed .failed)
        "conversation_restarted" = some (.jBool true)
    ∧ "conversation_restarted" ∉ documentedFields := by
  decide

/-- C3 (amended): on the success path, whenever the parsed reply contains
only documented keys and the post-processing raises no exception, the
payload returned by the route contains every documented field except
possibly `follow_up_options` (which is never `setdefault`-ed), and no
undocumented field; values are passed through without type enforcement,
and the restart/error payloads are fixed objects with smaller key sets. -/
theorem claim3_amended (cs es : Int) (tm : Nat) (reply : Dict)
    (hkeys : ∀ k, (dget reply k).isSome → k ∈ documentedFields)
    (hok : (postCore cs es reply).isSome) :
    (∀ k, k ∈ documentedFields → k ≠ "follow_up_options" →
        (dget (routeProcess tm (giResult cs es reply)) k).isSome)
    ∧ (∀ k, (dget (routeProcess tm (giResult cs es reply)) k).isSome →
        k ∈ documentedFields) := by
  obtain ⟨out, hp⟩ := Option.isSome_iff_exists.mp hok
  obtain ⟨dmid, d, h1, h2, hout⟩ := postCore_eq_some _ _ _ _ hp
  have hgi : giResult cs es reply = postTail d := by
    unfold giResult
    rw [hp]
    simp only [Option.getD_some]
    exact hout
  rw [hgi]
  constructor
  · intro k hk hne
    apply routeProcess_mono
    simp only [documentedFields, List.mem_cons, List.not_mem_nil,
      or_false] at hk
    rcases hk with rfl | rfl | rfl | rfl | rfl | rfl | rfl | rfl | rfl | rfl
      | rfl | rfl | rfl | rfl | rfl | rfl | rfl | rfl | rfl | rfl
    all_goals first
      | exact absurd rfl hne
      | exact tail_mono d _ (stageDefaults_present _ _ (by decide))
      | exact tail_mono d _ (stageDefaults_mono _ _ (stageScaleBackfill_mono
          _ _ _ h2 (stageOptions_mono _ _ _ h1
            (stage1_present4 cs es reply).1)))
      | exact tail_mono d _ (stageDefaults_mono _ _ (stageScaleBackfill_mono
          _ _ _ h2 (stageOptions_mono _ _ _ h1
            (stage1_present4 cs es reply).2.1)))
      | exact tail_mono d _ (stageDefaults_mono _ _ (stageScaleBackfill_mono
          _ _ _ h2 (stageOptions_mono _ _ _ h1
            (stage1_present4 cs es reply).2.2.1)))
      | exact tail_mono d _ (stageDefaults_mono _ _ (stageScaleBackfill_mono
          _ _ _ h2 (stageOptions_mono _ _ _ h1
            (stage1_present4 cs es reply).2.2.2)))
  · intro k hk
    by_cases hin : k ∈ documentedFields
    · exact hin
    · exfalso
      have hni := hin
      simp only [documentedFields, List.mem_cons, List.not_mem_nil,
        or_false, not_or] at hni
      obtain ⟨m1, m2, m3, m4, m5, m6, m7, m8, m9, m10, m11, m12, m13, m14,
        m15, m16, m17, m18, m19, m20⟩ := hni
      rw [routeProcess_dget_ne tm _ k m11 m2 m3 m10 m19,
          postTail_dget_ne d k m6 m7 m8 m9 m10 m11 m12 m13 m14 m15 m16 m17
            m18 m19 m20 m1 m2 m3,
          prePipeline_dget_ne cs es reply dmid d k h1 h2 m1 m12 m13 m2 m3
            m4 m5] at hk
      exact hin (hkeys k hk)

/-- C3 witness: the amended field-set guarantee on a concrete empty
reply. -/
theorem claim3_witness :
    (dget (routeProcess 5 (giResult 1 4 [])) "Symptoms").isSome = true :=
  (claim3_amended 1 4 5 []
    (fun _ hk => absurd hk (by simp [dget])) (by decide)).1
    "Symptoms" (by decide) (by decide)

/-- A non-medical reply with a stale follow-up question, supplied to a
99-message conversation: the length failsafe does not fire because the
core function already marked the conversation complete, so the stale
question survives. -/
def c6Reply : Dict :=
  [("is_medical_related", .jBool false),
   ("conversation_complete", .jBool false),
   ("needs_follow_up", .jBool false),
   ("follow_up_question", .jStr "Shall we talk about movies?")]

/-- C6 as stated is FALSE: with history length 99 (total 100 messages)
the payload can carry a non-empty `follow_up_question`. -/
theorem claim6_counterexample :
    dget (routeHandle "hello there" 99 50 4 (.replied (some c6Reply))
        .failed .failed) "conversation_complete" = some (.jBool true)
    ∧ dget (routeHandle "hello there" 99 50 4 (.replied (some c6Reply))
        .failed .failed) "follow_up_question"
        = some (.jStr "Shall we talk about movies?")
    ∧ ¬ dget (routeHandle "hello there" 99 50 4 (.replied (some c6Reply))
        .failed .failed) "follow_up_question" = some (.jStr "") := by
  decide

/-- C6 (amended): for a non-restart request with
`len(history) + 1 ≥ 100`, if each parsed reply stores
`conversation_complete` as a boolean or omits it, then the returned
payload has `conversation_complete = true` and `needs_follow_up = false`,
and whenever it is medical it also has
`can_provide_structured_response = true` and `follow_up_question = ""`
(a non-medical reply may retain a stale follow-up question). -/
theorem claim6_amended (message : String) (historyLen : Nat) (cs es : Int)
    (o1 o2 o3 : CallOutcome)
    (hres : isRestartMessage message = false)
    (htm : 100 ≤ historyLen + 1)
    (hc1 : OutcomeCcOk o1) (hc2 : OutcomeCcOk o2) (hc3 : OutcomeCcOk o3) :
    dget (routeHandle message historyLen cs es o1 o2 o3)
      "conversation_complete" = some (.jBool true)
    ∧ dget (routeHandle message historyLen cs es o1 o2 o3)
        "needs_follow_up" = some (.jBool false)
    ∧ ((dgetD (routeHandle message historyLen cs es o1 o2 o3)
          "is_medical_related").truthy = true →
        dget (routeHandle message historyLen cs es o1 o2 o3)
          "can_provide_structured_response" = some (.jBool true)
        ∧ dget (routeHandle message historyLen cs es o1 o2 o3)
          "follow_up_question" = some (.jStr "")) := by
  have hfacts := gi_cc_facts cs es o1 o2 o3 hc1 hc2 hc3
  have hmain := routeProcess_complete_facts (historyLen + 1)
    (geminiInteractive cs es o1 o2 o3) htm hfacts.1
    (completeInvariant_gi cs es o1 o2 o3) hfacts.2
  unfold routeHandle
  rw [if_neg (by simp [hres])]
  exact hmain

/-- C6 witness: the forced completion on a concrete long conversation
whose three call attempts all fail. -/
theorem claim6_witness :
    dget (routeHandle "hello" 99 50 4 .failed .failed .failed)
      "conversation_complete" = some (.jBool true) :=
  (claim6_amended "hello" 99 50 4 .failed .failed .failed (by decide)
    (by decide) trivial trivial trivial).1

/-- A reply whose `is_medical_related_prompt` is neither "Yes" nor "No":
the sync block (lines 1020-1026) only corrects the two enum values, so
the stray string survives next to `is_medical_related = true`. -/
def c7Reply : Dict :=
  [("is_medical_related", .jBool true),
   ("is_medical_related_prompt", .jStr "Maybe")]

/-- C7 as stated is FALSE: the returned dict can have
`is_medical_related = true` while `is_medical_related_prompt` is not
"Yes". -/
theorem claim7_counterexample :
    dget (giResult 1 4 c7Reply) "is_medical_related" = some (.jBool true)
    ∧ dget (giResult 1 4 c7Reply) "is_medical_related_prompt"
        = some (.jStr "Maybe")
    ∧ ¬ dget (giResult 1 4 c7Reply) "is_medical_related_prompt"
        = some (.jStr "Yes") := by
  decide

/-- C7 (amended): when the reply stores `is_medical_related` as a boolean
(or omits it, defaulting to true) and stores `is_medical_related_prompt`
as "Yes", "No" or omits it, the success-path dict has the two flags
synchronised: the prompt is "Yes" exactly when the boolean is true. -/
theorem claim7_amended (cs es : Int) (reply : Dict) (b : Bool)
    (hmed : (dget reply "is_medical_related").getD (.jBool true) = .jBool b)
    (hpr : dget reply "is_medical_related_prompt" = none
         ∨ dget reply "is_medical_related_prompt" = some (.jStr "Yes")
         ∨ dget reply "is_medical_related_prompt" = some (.jStr "No"))
    (hok : (postCore cs es reply).isSome) :
    dget (giResult cs es reply) "is_medical_related" = some (.jBool b)
    ∧ dget (giResult cs es reply) "is_medical_related_prompt"
        = some (.jStr (if b then "Yes" else "No")) := by
  obtain ⟨out, hp⟩ := Option.isSome_iff_exists.mp hok
  obtain ⟨dmid, d, h1, h2, hout⟩ := postCore_eq_some _ _ _ _ hp
  have hdmed : dget d "is_medical_related"
      = dget reply "is_medical_related" :=
    prePipeline_dget_ne cs es reply dmid d _ h1 h2 (by decide) (by decide)
      (by decide) (by decide) (by decide) (by decide) (by decide)
  have hdpr : dget d "is_medical_related_prompt"
      = dget reply "is_medical_related_prompt" :=
    prePipeline_dget_ne cs es reply dmid d _ h1 h2 (by decide) (by decide)
      (by decide) (by decide) (by decide) (by decide) (by decide)
  unfold giResult
  rw [hp]
  simp only [Option.getD_some]
  rw [hout]
  constructor
  · rw [postTail_medical, hdmed, hmed]
  · apply postTail_prompt_sync
    · rw [hdmed]
      exact hmed
    · rw [hdpr]
      exact hpr

/-- C7 witness: the synchronised flags on a concrete reply. -/
theorem claim7_witness :
    dget (giResult 1 4 [("is_medical_related", .jBool true),
        ("is_medical_related_prompt", .jStr "No")])
      "is_medical_related_prompt" = some (.jStr "Yes") := by
  have h := (claim7_amended 1 4 [("is_medical_related", .jBool true),
    ("is_medical_related_prompt", .jStr "No")] true (by decide)
    (Or.inr (Or.inr (by decide))) (by decide)).2
  simpa using h

/-- C8: the medication post-processing splits each string-typed
medication entry into its `[A-Z][a-z]*` runs (the concrete example
end-to-end through `gemini_interactive`), every produced run matches the
pattern, and a string with no uppercase letter (hence no run) is kept
unchanged. -/
theorem claim8_medsplit :
    dget (giResult 1 4 [("medication", .jStrList ["IbuprofenAcetaminophen"]),
        ("is_medical_related", .jBool true)]) "medication"
      = some (.jStrList ["Ibuprofen", "Acetaminophen"])
    ∧ capFindall "IbuprofenAcetaminophen" = ["Ibuprofen", "Acetaminophen"]
    ∧ (∀ (d : Dict) (meds : List String),
        dget d "medication" = some (.jStrList meds) →
        dget (stageMeds d) "medication"
          = some (.jStrList (meds.map splitMedEntry).flatten))
    ∧ (∀ s : String, (∀ c ∈ s.data, c.isUpper = false) →
        splitMedEntry s = [s])
    ∧ (∀ s : String, ∀ r ∈ capFindall s, CapRunShape r.data) := by
  refine ⟨by decide, by decide, stageMeds_value, ?_, capFindall_shape⟩
  intro s h
  unfold splitMedEntry
  rw [capFindall_nil_of_no_upper s h]
  rfl

/-- C8 witness: a lowercase entry is kept unchanged. -/
theorem claim8_witness : splitMedEntry "aspirin" = ["aspirin"] :=
  claim8_medsplit.2.2.2.1 "aspirin" (by decide)

/-- C9 as stated is FALSE: the claim lists the total-steps table with the
fever row first, but the source checks the headache row first, so
"I have a fever and headache" gets estimate 4 where the claim's table
gives 3. -/
theorem claim9_counterexample :
    selectInstructionEmpty "I have a fever and headache"
      = InstrKind.initialSymptom
    ∧ symptomTableSteps (strLower "I have a fever and headache") = 4
    ∧ specClaimTableSteps (strLower "I have a fever and headache") = 3
    ∧ dget (geminiInteractiveInitial "I have a fever and headache"
        (.replied (some [])) .failed .failed) "total_steps"
        = some (.jInt 4) := by
  decide

/-- C9 (amended): for an empty-history message containing a symptom
keyword that matches neither the non-medical nor the high-severity rule,
the Initial Symptom instruction is selected, and whenever the reply omits
`total_steps` or sets it to 0 (and the post-processing raises no
exception) the returned dict's `total_steps` is the estimate from the
static table in SOURCE row order (headache before stomach before fever
before cough before rash). -/
theorem claim9_amended (message : String) (reply : Dict)
    (h1 : isNonMedicalMsg (strLower message) = false)
    (h2 : isHighSeverityMsg (strLower message) = false)
    (h3 : anyKeyword initialSymptomKeywords (strLower message) = true)
    (hts : (!(dget reply "total_steps").isSome
            || (dgetD reply "total_steps").eqInt 0) = true)
    (hok : (postCore 1 (emptyHistoryEstimatedSteps message) reply).isSome) :
    selectInstructionEmpty message = InstrKind.initialSymptom
    ∧ dget (giResult 1 (emptyHistoryEstimatedSteps message) reply)
        "total_steps"
        = some (.jInt (symptomTableSteps (strLower message))) := by
  have hsel : selectInstructionEmpty message = InstrKind.initialSymptom := by
    unfold selectInstructionEmpty
    simp only []
    rw [if_neg (by simp [h1]), if_neg (by simp [h2]), if_pos h3]
  have hes : emptyHistoryEstimatedSteps message
      = symptomTableSteps (strLower message) := by
    unfold emptyHistoryEstimatedSteps
    simp only []
    rw [if_neg (by simp [h1]), if_neg (by simp [h2]), if_pos h3]
  refine ⟨hsel, ?_⟩
  obtain ⟨out, hp⟩ := Option.isSome_iff_exists.mp hok
  obtain ⟨dmid, d, ho1, ho2, hout⟩ := postCore_eq_some _ _ _ _ hp
  unfold giResult
  rw [hp]
  simp only [Option.getD_some]
  rw [hout]
  apply postTail_total
  have hstage1 : dget (stage1 1 (emptyHistoryEstimatedSteps message) reply)
      "total_steps" = some (.jInt (emptyHistoryEstimatedSteps message)) :=
    stage1_total_steps _ _ _ hts
  have hA : dget dmid "total_steps"
      = some (.jInt (emptyHistoryEstimatedSteps message)) := by
    rw [stageOptions_dget_ne _ _ "total_steps" ho1 (by decide) (by decide)
      (by decide)]
    exact hstage1
  have hB : dget d "total_steps"
      = some (.jInt (emptyHistoryEstimatedSteps message)) := by
    rw [stageScaleBackfill_dget_ne _ _ "total_steps" ho2 (by decide)]
    exact hA
  rw [hes] at hB
  exact hB

/-- C9 witness: the table estimate on a concrete initial symptom
message. -/
theorem claim9_witness :
    dget (giResult 1 (emptyHistoryEstimatedSteps "I feel sick") [])
      "total_steps"
      = some (.jInt (symptomTableSteps (strLower "I feel sick"))) :=
  (claim9_amended "I feel sick" [] (by decide) (by decide) (by decide)
    (by decide) (by decide)).2

/-- C10: a POST whose message strips and lowercases to one of the four
restart commands gets the fixed restart payload (with
`conversation_restarted = true`, `conversation_complete = false`,
`needs_follow_up = false`), independently of the external-call outcomes —
the external model is never consulted. -/
theorem claim10_restart (message : String) (historyLen : Nat) (cs es : Int)
    (o1 o2 o3 : CallOutcome) (h : isRestartMessage message = true) :
    routeHandle message historyLen cs es o1 o2 o3 = restartPayload
    ∧ dget restartPayload "conversation_restarted" = some (.jBool true)
    ∧ dget restartPayload "conversation_complete" = some (.jBool false)
    ∧ dget restartPayload "needs_follow_up" = some (.jBool false) := by
  refine ⟨?_, by decide, by decide, by decide⟩
  unfold routeHandle
  rw [if_pos h]

/-- C10 witness: a restart request with surrounding whitespace and mixed
case. -/
theorem claim10_witness :
    routeHandle "  Start Over  " 7 3 4 .failed (.replied (some [])) .failed
      = restartPayload :=
  (claim10_restart "  Start Over  " 7 3 4 .failed (.replied (some []))
    .failed (by decide)).1

end MedAssist
